import Mathlib

/-!
The svgpp path adapter (`include/svgpp/adapter/path.hpp`).

A shallow embedding of `svgpp::path_adapter` and of the dispatch layer
`detail::path_adapter_load_path_policy`, followed by theorems about it.

Conventions of the embedding.

* `coordinate_type` is `ℚ`: coordinate arithmetic is exact.
* The output context is the list of `LoadPolicy::path_*` calls made so far, oldest first.
* Every C++ overload set is one Lean function; the `enable_if_c` / `disable_if_c` conditions and
  the coordinate tag select the body, and each body is annotated with its source lines.
* The two optional base classes (`*_data` or `*_stub`) are chosen by the policy. The fields of a
  `*_data` base are always present in the record; with a `*_stub` base nothing writes them, and
  an overload that reads one of them has no instantiation (`fault.ill_formed`).
* A handler that recurses into itself takes a recursion budget (`fuel`) and yields
  `fault.out_of_fuel` when the budget is spent.
* `svgpp/utility/arc_endpoint_to_center.hpp`, `svgpp/utility/arc_to_bezier.hpp` and the Boost
  constants are not part of this unit; they are parameters (`arc_helpers`).
-/

namespace svgpp

/-- The numeric type `Coordinate` of the adapter, taken as exact rationals. -/
abbrev coordinate_type := ℚ

/-- The two coordinate tags `tag::absolute_coordinate` and `tag::relative_coordinate`:
distinct empty types, neither convertible to the other. -/
inductive tag where
  | absolute_coordinate
  | relative_coordinate
  deriving DecidableEq, Repr

/-- The path policy: the compile-time flags `PathPolicy::*` read by the adapter. -/
structure PathPolicy where
  absolute_coordinates_only : Bool
  no_ortho_line_to : Bool
  no_quadratic_bezier_shorthand : Bool
  no_cubic_bezier_shorthand : Bool
  quadratic_bezier_as_cubic : Bool
  arc_as_cubic_bezier : Bool
  deriving DecidableEq, Repr

/-- The condition of the `BOOST_STATIC_ASSERT_MSG` in the constructor (line 140):
`!quadratic_bezier_as_cubic || no_cubic_bezier_shorthand`. -/
def PathPolicy.static_assert_ok (P : PathPolicy) : Bool :=
  !P.quadratic_bezier_as_cubic || P.no_cubic_bezier_shorthand

/-- The metafunction `need_path_adapter` (lines 23-31). -/
def need_path_adapter (P : PathPolicy) : Bool :=
  P.absolute_coordinates_only
  || P.no_ortho_line_to
  || P.no_quadratic_bezier_shorthand
  || P.no_cubic_bezier_shorthand
  || P.quadratic_bezier_as_cubic

/-- One path command: the vocabulary of the `path_*` entry points, which is also the vocabulary
of the `LoadPolicy::path_*` calls on the output context. The two-point quadratic and the
three-point cubic are the explicit forms; the `_shorthand` constructors stand for the overloads
of the same C++ name that take one point fewer. -/
inductive path_command where
  | path_move_to (x y : coordinate_type) (t : tag)
  | path_line_to (x y : coordinate_type) (t : tag)
  | path_line_to_ortho (coord : coordinate_type) (horizontal : Bool) (t : tag)
  | path_quadratic_bezier_to (x1 y1 x y : coordinate_type) (t : tag)
  | path_quadratic_bezier_to_shorthand (x y : coordinate_type) (t : tag)
  | path_cubic_bezier_to (x1 y1 x2 y2 x y : coordinate_type) (t : tag)
  | path_cubic_bezier_to_shorthand (x2 y2 x y : coordinate_type) (t : tag)
  | path_elliptical_arc_to (rx ry x_axis_rotation : coordinate_type)
      (large_arc_flag sweep_flag : Bool) (x y : coordinate_type) (t : tag)
  | path_close_subpath
  | path_exit
  deriving DecidableEq, Repr

/-- The adapter object: the output context (as the log of calls made on it), the data members of
lines 164, and the members of the two optional bases (lines 40-41 and 80-81). -/
structure path_adapter where
  output_context : List path_command
  current_x : coordinate_type
  current_y : coordinate_type
  subpath_start_x : coordinate_type
  subpath_start_y : coordinate_type
  last_cubic_bezier_cp_x : coordinate_type
  last_cubic_bezier_cp_y : coordinate_type
  last_cubic_bezier_cp_valid : Bool
  last_quadratic_bezier_cp_x : coordinate_type
  last_quadratic_bezier_cp_y : coordinate_type
  last_quadratic_bezier_cp_valid : Bool
  deriving DecidableEq, Repr

/-- Why a call of an entry point yields no adapter state. -/
inductive fault where
  /-- The recursion budget of the model ran out before the call returned. -/
  | out_of_fuel
  /-- The selected overload names a member its base class does not declare: it has no
  well-formed instantiation for this policy. -/
  | ill_formed
  deriving DecidableEq, Repr

/-- One cubic segment yielded by the `arc_to_bezier` iterator
(`p1x() .. p3y()`, lines 648-650). -/
structure bezier_segment where
  p1x : coordinate_type
  p1y : coordinate_type
  p2x : coordinate_type
  p2y : coordinate_type
  p3x : coordinate_type
  p3y : coordinate_type
  deriving DecidableEq, Repr

/-- The collaborators of `path_elliptical_arc_to` that live outside this unit, as parameters.
`arc_endpoint_to_center` returns its four output arguments `(cx, cy, theta1, theta2)`;
`arc_to_bezier` returns the segments its iterator yields until `eof()`. -/
structure arc_helpers where
  arc_endpoint_to_center :
    (x1 y1 x2 y2 rx ry x_axis_rotation : coordinate_type) → (large_arc_flag sweep_flag : Bool) →
      coordinate_type × coordinate_type × coordinate_type × coordinate_type
  arc_to_bezier :
    (cx cy rx ry x_axis_rotation theta1 theta2 max_angle : coordinate_type) → List bezier_segment
  two_pi : coordinate_type
  half_pi : coordinate_type

/-- Whether a command shape is one the policy leaves to the output context: no orthogonal line
under `no_ortho_line_to`, no cubic shorthand under `no_cubic_bezier_shorthand`, no quadratic
shorthand under `no_quadratic_bezier_shorthand`, no quadratic at all under
`quadratic_bezier_as_cubic`, no arc under `arc_as_cubic_bezier`. -/
def PathPolicy.accepts_shape (P : PathPolicy) : path_command → Bool
  | .path_line_to_ortho _ _ _ => !P.no_ortho_line_to
  | .path_cubic_bezier_to_shorthand _ _ _ _ _ => !P.no_cubic_bezier_shorthand
  | .path_quadratic_bezier_to_shorthand _ _ _ =>
    !P.no_quadratic_bezier_shorthand && !P.quadratic_bezier_as_cubic
  | .path_quadratic_bezier_to _ _ _ _ _ => !P.quadratic_bezier_as_cubic
  | .path_elliptical_arc_to _ _ _ _ _ _ _ _ => !P.arc_as_cubic_bezier
  | _ => true

/-- The coordinate tag a command carries, if it carries one. -/
def path_command.tag_of : path_command → Option tag
  | .path_move_to _ _ t => some t
  | .path_line_to _ _ t => some t
  | .path_line_to_ortho _ _ t => some t
  | .path_quadratic_bezier_to _ _ _ _ t => some t
  | .path_quadratic_bezier_to_shorthand _ _ t => some t
  | .path_cubic_bezier_to _ _ _ _ _ _ t => some t
  | .path_cubic_bezier_to_shorthand _ _ _ _ t => some t
  | .path_elliptical_arc_to _ _ _ _ _ _ _ t => some t
  | .path_close_subpath => none
  | .path_exit => none


namespace path_adapter

/-- The object the constructor builds (lines 135-139, with the base constructors of lines 43-46
and 83-86): the pen and the subpath start at the origin and both control points invalid. The
base constructors leave the control point coordinates uninitialised; the values those members
happen to hold are arguments. -/
def initial (original_context : List path_command)
    (cubic_x cubic_y quadratic_x quadratic_y : coordinate_type) : path_adapter :=
  { output_context := original_context
    current_x := 0
    current_y := 0
    subpath_start_x := 0
    subpath_start_y := 0
    last_cubic_bezier_cp_x := cubic_x
    last_cubic_bezier_cp_y := cubic_y
    last_cubic_bezier_cp_valid := false
    last_quadratic_bezier_cp_x := quadratic_x
    last_quadratic_bezier_cp_y := quadratic_y
    last_quadratic_bezier_cp_valid := false }

/-- The constructor with its static assertion (line 140): no object exists for a policy that
fails the assertion. -/
def construct (P : PathPolicy) (original_context : List path_command)
    (cubic_x cubic_y quadratic_x quadratic_y : coordinate_type) : Option path_adapter :=
  if P.static_assert_ok then
    some (initial original_context cubic_x cubic_y quadratic_x quadratic_y)
  else none

/-- A call `LoadPolicy::path_*(output_context, ...)`: the call is appended to the log. -/
def forward (a : path_adapter) (c : path_command) : path_adapter :=
  { a with output_context := a.output_context ++ [c] }

/-- The base member `set_cubic_cp_base` (lines 48-53); a no-op in the stub (lines 66-68).
The data base is selected by `no_cubic_bezier_shorthand` (lines 123-126). -/
def set_cubic_cp_base (P : PathPolicy) (a : path_adapter)
    (absolute_x absolute_y : coordinate_type) : path_adapter :=
  if P.no_cubic_bezier_shorthand then
    { a with last_cubic_bezier_cp_x := absolute_x, last_cubic_bezier_cp_y := absolute_y,
             last_cubic_bezier_cp_valid := true }
  else a

/-- The base member `invalidate_last_cubic_bezier_cp` (lines 55-58; stub: lines 70-72). -/
def invalidate_last_cubic_bezier_cp (P : PathPolicy) (a : path_adapter) : path_adapter :=
  if P.no_cubic_bezier_shorthand then { a with last_cubic_bezier_cp_valid := false } else a

/-- Whether the quadratic base is `path_adapter_quadratic_bezier_data` (lines 127-130). -/
def has_quadratic_bezier_data (P : PathPolicy) : Bool :=
  P.no_quadratic_bezier_shorthand || P.quadratic_bezier_as_cubic

/-- The base member `set_quadratic_cp_base` (lines 88-93); a no-op in the stub (lines 106-108). -/
def set_quadratic_cp_base (P : PathPolicy) (a : path_adapter)
    (absolute_x absolute_y : coordinate_type) : path_adapter :=
  if has_quadratic_bezier_data P then
    { a with last_quadratic_bezier_cp_x := absolute_x, last_quadratic_bezier_cp_y := absolute_y,
             last_quadratic_bezier_cp_valid := true }
  else a

/-- The base member `invalidate_last_quadratic_bezier_cp` (lines 95-98; stub: lines 110-112). -/
def invalidate_last_quadratic_bezier_cp (P : PathPolicy) (a : path_adapter) : path_adapter :=
  if has_quadratic_bezier_data P then { a with last_quadratic_bezier_cp_valid := false } else a

/-- Lines 144-148. -/
def non_curve_command (P : PathPolicy) (a : path_adapter) : path_adapter :=
  invalidate_last_quadratic_bezier_cp P (invalidate_last_cubic_bezier_cp P a)

/-- Lines 150-154. -/
def set_cubic_cp (P : PathPolicy) (a : path_adapter)
    (absolute_x absolute_y : coordinate_type) : path_adapter :=
  invalidate_last_quadratic_bezier_cp P (set_cubic_cp_base P a absolute_x absolute_y)

/-- Lines 156-160. -/
def set_quadratic_cp (P : PathPolicy) (a : path_adapter)
    (absolute_x absolute_y : coordinate_type) : path_adapter :=
  invalidate_last_cubic_bezier_cp P (set_quadratic_cp_base P a absolute_x absolute_y)

/-- The overload `path_move_to(x, y, tag::absolute_coordinate)`, lines 169-180. -/
def path_move_to_absolute (P : PathPolicy) (a : path_adapter) (x y : coordinate_type) :
    path_adapter :=
  let a := forward a (.path_move_to x y .absolute_coordinate)
  let a := non_curve_command P a
  { a with current_x := x, current_y := y, subpath_start_x := x, subpath_start_y := y }

/-- The overload `path_move_to(x, y, tag::relative_coordinate)` that is enabled when
`absolute_coordinates_only` is off, lines 196-208. Its body calls
`path_move_to<Policy>(x, y, tag)` with the relative tag (line 204): the absolute overload does not
accept that tag and the other relative overload is disabled, so the call resolves to this same
overload. Each level of the recursion spends one unit of fuel. -/
def path_move_to_relative (P : PathPolicy) :
    Nat → path_adapter → coordinate_type → coordinate_type → Except fault path_adapter
  | 0, _, _, _ => .error .out_of_fuel
  | fuel + 1, a, x, y =>
    let a := { a with current_x := a.current_x + x, current_y := a.current_y + y }
    match path_move_to_relative P fuel a x y with
    | .error e => .error e
    | .ok a =>
      let a := non_curve_command P a
      .ok { a with subpath_start_x := a.current_x, subpath_start_y := a.current_y }

/-- The overload set `path_move_to` (lines 169-208). -/
def path_move_to (P : PathPolicy) (fuel : Nat) (a : path_adapter) (x y : coordinate_type) :
    tag → Except fault path_adapter
  | .absolute_coordinate => .ok (path_move_to_absolute P a x y)
  | .relative_coordinate =>
    if P.absolute_coordinates_only then
      -- lines 182-194
      let a := { a with current_x := a.current_x + x, current_y := a.current_y + y }
      let a := path_move_to_absolute P a a.current_x a.current_y
      let a := non_curve_command P a
      .ok { a with subpath_start_x := a.current_x, subpath_start_y := a.current_y }
    else
      -- lines 196-208
      path_move_to_relative P fuel a x y

/-- The overload set `path_line_to` (lines 210-243). -/
def path_line_to (P : PathPolicy) (a : path_adapter) (x y : coordinate_type) :
    tag → path_adapter
  | .absolute_coordinate =>
    -- lines 210-219
    let a := { a with current_x := x, current_y := y }
    let a := forward a (.path_line_to x y .absolute_coordinate)
    non_curve_command P a
  | .relative_coordinate =>
    if P.absolute_coordinates_only then
      -- lines 221-231
      let a := { a with current_x := a.current_x + x, current_y := a.current_y + y }
      let a := forward a (.path_line_to a.current_x a.current_y .absolute_coordinate)
      non_curve_command P a
    else
      -- lines 233-243
      let a := { a with current_x := a.current_x + x, current_y := a.current_y + y }
      let a := forward a (.path_line_to x y .relative_coordinate)
      non_curve_command P a

/-- The overload set `path_line_to_ortho` (lines 245-307). -/
def path_line_to_ortho (P : PathPolicy) (a : path_adapter) (coord : coordinate_type)
    (horizontal : Bool) : tag → path_adapter
  | .relative_coordinate =>
    if P.no_ortho_line_to then
      -- lines 245-255
      if horizontal then path_line_to P a coord 0 .relative_coordinate
      else path_line_to P a 0 coord .relative_coordinate
    else if P.absolute_coordinates_only then
      -- lines 282-294
      let a := if horizontal then { a with current_x := a.current_x + coord }
               else { a with current_y := a.current_y + coord }
      let a := forward a (.path_line_to_ortho (if horizontal then a.current_x else a.current_y)
                 horizontal .absolute_coordinate)
      non_curve_command P a
    else
      -- lines 296-307
      let a := if horizontal then { a with current_x := a.current_x + coord }
               else { a with current_y := a.current_y + coord }
      let a := forward a (.path_line_to_ortho coord horizontal .relative_coordinate)
      non_curve_command P a
  | .absolute_coordinate =>
    if P.no_ortho_line_to then
      -- lines 257-267
      if horizontal then path_line_to P a coord a.current_y .absolute_coordinate
      else path_line_to P a a.current_x coord .absolute_coordinate
    else
      -- lines 269-280
      let a := if horizontal then { a with current_x := coord }
               else { a with current_y := coord }
      let a := forward a (.path_line_to_ortho coord horizontal .absolute_coordinate)
      non_curve_command P a

/-- The six-coordinate overload set `path_cubic_bezier_to` (explicit form, lines 495-549). -/
def path_cubic_bezier_to (P : PathPolicy) (a : path_adapter)
    (x1 y1 x2 y2 x y : coordinate_type) : tag → path_adapter
  | .absolute_coordinate =>
    -- lines 495-509
    let a := { a with current_x := x, current_y := y }
    let a := forward a (.path_cubic_bezier_to x1 y1 x2 y2 x y .absolute_coordinate)
    set_cubic_cp P a x2 y2
  | .relative_coordinate =>
    if P.absolute_coordinates_only then
      -- lines 511-532
      let x := x + a.current_x
      let y := y + a.current_y
      let x1 := x1 + a.current_x
      let y1 := y1 + a.current_y
      let x2 := x2 + a.current_x
      let y2 := y2 + a.current_y
      let a := forward a (.path_cubic_bezier_to x1 y1 x2 y2 x y .absolute_coordinate)
      let a := set_cubic_cp P a x2 y2
      { a with current_x := x, current_y := y }
    else
      -- lines 534-549
      let a := forward a (.path_cubic_bezier_to x1 y1 x2 y2 x y .relative_coordinate)
      let a := set_cubic_cp P a (x2 + a.current_x) (y2 + a.current_y)
      { a with current_x := a.current_x + x, current_y := a.current_y + y }

/-- The four-coordinate overload set `path_cubic_bezier_to` (shorthand form, lines 551-614). -/
def path_cubic_bezier_to_shorthand (P : PathPolicy) (a : path_adapter)
    (x2 y2 x y : coordinate_type) : tag → path_adapter
  | .absolute_coordinate =>
    if P.no_cubic_bezier_shorthand then
      -- lines 551-567
      if a.last_cubic_bezier_cp_valid then
        path_cubic_bezier_to P a
          (2 * a.current_x - a.last_cubic_bezier_cp_x)
          (2 * a.current_y - a.last_cubic_bezier_cp_y)
          x2 y2 x y .absolute_coordinate
      else
        path_cubic_bezier_to P a a.current_x a.current_y x2 y2 x y .absolute_coordinate
    else
      -- lines 586-599
      let a := { a with current_x := x, current_y := y }
      let a := forward a (.path_cubic_bezier_to_shorthand x2 y2 x y .absolute_coordinate)
      set_cubic_cp P a x2 y2
  | .relative_coordinate =>
    if P.no_cubic_bezier_shorthand then
      -- lines 569-584
      if a.last_cubic_bezier_cp_valid then
        path_cubic_bezier_to P a
          (a.current_x - a.last_cubic_bezier_cp_x)
          (a.current_y - a.last_cubic_bezier_cp_y)
          x2 y2 x y .relative_coordinate
      else
        path_cubic_bezier_to P a 0 0 x2 y2 x y .relative_coordinate
    else
      -- lines 601-614
      let a := forward a (.path_cubic_bezier_to_shorthand x2 y2 x y .relative_coordinate)
      let a := set_cubic_cp P a (a.current_x + x2) (a.current_y + y2)
      { a with current_x := a.current_x + x, current_y := a.current_y + y }

/-- The four-coordinate overload set `path_quadratic_bezier_to`
(explicit form, lines 309-356 and 455-493). -/
def path_quadratic_bezier_to (P : PathPolicy) (a : path_adapter)
    (x1 y1 x y : coordinate_type) : tag → path_adapter
  | .absolute_coordinate =>
    if P.quadratic_bezier_as_cubic then
      -- lines 455-473
      let k1 : coordinate_type := 1 / 3
      let k2 : coordinate_type := 2 / 3
      let xk := k2 * x1
      let yk := k2 * y1
      path_cubic_bezier_to P a
        (a.current_x * k1 + xk) (a.current_y * k1 + yk)
        (x * k1 + xk) (y * k1 + yk)
        x y .absolute_coordinate
    else
      -- lines 309-322
      let a := { a with current_x := x, current_y := y }
      let a := forward a (.path_quadratic_bezier_to x1 y1 x y .absolute_coordinate)
      set_quadratic_cp P a x1 y1
  | .relative_coordinate =>
    if P.quadratic_bezier_as_cubic then
      -- lines 475-493
      let k1 : coordinate_type := 1 / 3
      let k2 : coordinate_type := 2 / 3
      let xk := k2 * x1
      let yk := k2 * y1
      path_cubic_bezier_to P a
        xk yk
        (x * k1 + xk) (y * k1 + yk)
        x y .relative_coordinate
    else if P.absolute_coordinates_only then
      -- lines 324-341
      let x := x + a.current_x
      let y := y + a.current_y
      let x1 := x1 + a.current_x
      let y1 := y1 + a.current_y
      let a := { a with current_x := x, current_y := y }
      let a := forward a (.path_quadratic_bezier_to x1 y1 x y .absolute_coordinate)
      set_quadratic_cp P a x1 y1
    else
      -- lines 343-356
      let a := forward a (.path_quadratic_bezier_to x1 y1 x y .relative_coordinate)
      let a := set_quadratic_cp P a (x1 + a.current_x) (y1 + a.current_y)
      { a with current_x := a.current_x + x, current_y := a.current_y + y }

/-- A read of the member `last_quadratic_bezier_cp_valid`. Only
`path_adapter_quadratic_bezier_data` declares it (line 81); the stub (lines 101-113) declares no
data member, so naming `this->last_quadratic_bezier_cp_valid` in an adapter whose base is the
stub is ill-formed and the overload that does so cannot be instantiated. -/
def read_last_quadratic_bezier_cp_valid (P : PathPolicy) (a : path_adapter) :
    Except fault Bool :=
  if has_quadratic_bezier_data P then .ok a.last_quadratic_bezier_cp_valid
  else .error .ill_formed

/-- The statements shared by the three overloads that forward a quadratic shorthand, after their
call on the output context: the `if` of lines 403-408 (also 425-430 and 445-450), which reads
`this->last_quadratic_bezier_cp_valid` and records the control point of the next reflection. -/
def record_quadratic_shorthand_cp (P : PathPolicy) (a : path_adapter) :
    Except fault path_adapter :=
  match read_last_quadratic_bezier_cp_valid P a with
  | .error e => .error e
  | .ok valid =>
    if valid then
      .ok (set_quadratic_cp P a
        (2 * a.current_x - a.last_quadratic_bezier_cp_x)
        (2 * a.current_y - a.last_quadratic_bezier_cp_y))
    else
      .ok (set_quadratic_cp P a a.current_x a.current_y)

/-- The two-coordinate overload set `path_quadratic_bezier_to` (shorthand form, lines 358-453).

The three overloads that forward the shorthand (lines 393-453) are enabled exactly when neither
`no_quadratic_bezier_shorthand` nor `quadratic_bezier_as_cubic` is set. For those policies the
quadratic base is the stub (lines 127-130), so the member read in their bodies is ill-formed:
they have no instantiation, and the embedding yields `fault.ill_formed` for them. -/
def path_quadratic_bezier_to_shorthand (P : PathPolicy) (a : path_adapter)
    (x y : coordinate_type) : tag → Except fault path_adapter
  | .absolute_coordinate =>
    if P.no_quadratic_bezier_shorthand || P.quadratic_bezier_as_cubic then
      -- lines 358-374
      if a.last_quadratic_bezier_cp_valid then
        .ok (path_quadratic_bezier_to P a
          (2 * a.current_x - a.last_quadratic_bezier_cp_x)
          (2 * a.current_y - a.last_quadratic_bezier_cp_y)
          x y .absolute_coordinate)
      else
        .ok (path_quadratic_bezier_to P a a.current_x a.current_y x y .absolute_coordinate)
    else
      -- lines 393-411
      let a := forward a (.path_quadratic_bezier_to_shorthand x y .absolute_coordinate)
      match record_quadratic_shorthand_cp P a with
      | .error e => .error e
      | .ok a => .ok { a with current_x := x, current_y := y }
  | .relative_coordinate =>
    if P.no_quadratic_bezier_shorthand || P.quadratic_bezier_as_cubic then
      -- lines 376-391
      if a.last_quadratic_bezier_cp_valid then
        .ok (path_quadratic_bezier_to P a
          (a.current_x - a.last_quadratic_bezier_cp_x)
          (a.current_y - a.last_quadratic_bezier_cp_y)
          x y .relative_coordinate)
      else
        .ok (path_quadratic_bezier_to P a 0 0 x y .relative_coordinate)
    else if P.absolute_coordinates_only then
      -- lines 413-433
      let x := x + a.current_x
      let y := y + a.current_y
      let a := forward a (.path_quadratic_bezier_to_shorthand x y .absolute_coordinate)
      match record_quadratic_shorthand_cp P a with
      | .error e => .error e
      | .ok a => .ok { a with current_x := x, current_y := y }
    else
      -- lines 435-453
      let a := forward a (.path_quadratic_bezier_to_shorthand x y .relative_coordinate)
      match record_quadratic_shorthand_cp P a with
      | .error e => .error e
      | .ok a => .ok { a with current_x := a.current_x + x, current_y := a.current_y + y }

/-- The adjustment of `theta2` after `arc_endpoint_to_center` (lines 631-640). -/
def arc_adjust_theta2 (H : arc_helpers) (sweep_flag : Bool) (theta1 theta2 : coordinate_type) :
    coordinate_type :=
  if sweep_flag then
    (if theta2 < theta1 then theta2 + H.two_pi else theta2)
  else
    (if theta2 > theta1 then theta2 - H.two_pi else theta2)

/-- The segments the loop of line 646 iterates over: `arc_endpoint_to_center` from the current
point (lines 627-630), the adjustment of `theta2` (lines 631-640) and the `arc_to_bezier` object
with `max_angle = half_pi` (lines 642-645). -/
def arc_segments (H : arc_helpers) (a : path_adapter)
    (rx ry x_axis_rotation : coordinate_type) (large_arc_flag sweep_flag : Bool)
    (x y : coordinate_type) : List bezier_segment :=
  match H.arc_endpoint_to_center a.current_x a.current_y x y rx ry x_axis_rotation
      large_arc_flag sweep_flag with
  | (cx, cy, theta1, theta2) =>
    H.arc_to_bezier cx cy rx ry x_axis_rotation theta1
      (arc_adjust_theta2 H sweep_flag theta1 theta2) H.half_pi

/-- The two overloads `path_elliptical_arc_to(..., tag::absolute_coordinate)` (lines 616-669). -/
def path_elliptical_arc_to_absolute (H : arc_helpers) (P : PathPolicy) (a : path_adapter)
    (rx ry x_axis_rotation : coordinate_type) (large_arc_flag sweep_flag : Bool)
    (x y : coordinate_type) : path_adapter :=
  if P.arc_as_cubic_bezier then
    -- lines 616-652
    (arc_segments H a rx ry x_axis_rotation large_arc_flag sweep_flag x y).foldl
      (fun a it =>
        path_cubic_bezier_to P a it.p1x it.p1y it.p2x it.p2y it.p3x it.p3y
          .absolute_coordinate)
      a
  else
    -- lines 654-669
    let a := forward a (.path_elliptical_arc_to rx ry x_axis_rotation large_arc_flag sweep_flag
               x y .absolute_coordinate)
    let a := non_curve_command P a
    { a with current_x := x, current_y := y }

/-- The overload set `path_elliptical_arc_to` (lines 616-702). -/
def path_elliptical_arc_to (H : arc_helpers) (P : PathPolicy) (a : path_adapter)
    (rx ry x_axis_rotation : coordinate_type) (large_arc_flag sweep_flag : Bool)
    (x y : coordinate_type) : tag → path_adapter
  | .absolute_coordinate =>
    path_elliptical_arc_to_absolute H P a rx ry x_axis_rotation large_arc_flag sweep_flag x y
  | .relative_coordinate =>
    if P.absolute_coordinates_only || P.arc_as_cubic_bezier then
      -- lines 671-684
      path_elliptical_arc_to_absolute H P a rx ry x_axis_rotation large_arc_flag sweep_flag
        (x + a.current_x) (y + a.current_y)
    else
      -- lines 686-702
      let a := forward a (.path_elliptical_arc_to rx ry x_axis_rotation large_arc_flag sweep_flag
                 x y .relative_coordinate)
      let a := non_curve_command P a
      { a with current_x := a.current_x + x, current_y := a.current_y + y }

/-- Lines 704-711. -/
def path_close_subpath (P : PathPolicy) (a : path_adapter) : path_adapter :=
  let a := forward a .path_close_subpath
  let a := non_curve_command P a
  { a with current_x := a.subpath_start_x, current_y := a.subpath_start_y }

/-- Lines 713-717. -/
def path_exit (a : path_adapter) : path_adapter :=
  forward a .path_exit

end path_adapter

namespace detail

/-- The dispatch layer `path_adapter_load_path_policy` (lines 730-804): each incoming command
is passed to the adapter member of the same name with the policy as template argument. -/
def path_adapter_load_path_policy (H : arc_helpers) (P : PathPolicy) (fuel : Nat)
    (context : path_adapter) : path_command → Except fault path_adapter
  | .path_move_to x y t => context.path_move_to P fuel x y t
  | .path_line_to x y t => .ok (context.path_line_to P x y t)
  | .path_line_to_ortho coord horizontal t => .ok (context.path_line_to_ortho P coord horizontal t)
  | .path_cubic_bezier_to x1 y1 x2 y2 x y t => .ok (context.path_cubic_bezier_to P x1 y1 x2 y2 x y t)
  | .path_cubic_bezier_to_shorthand x2 y2 x y t =>
    .ok (context.path_cubic_bezier_to_shorthand P x2 y2 x y t)
  | .path_quadratic_bezier_to x1 y1 x y t => .ok (context.path_quadratic_bezier_to P x1 y1 x y t)
  | .path_quadratic_bezier_to_shorthand x y t => context.path_quadratic_bezier_to_shorthand P x y t
  | .path_elliptical_arc_to rx ry rot large_arc_flag sweep_flag x y t =>
    .ok (context.path_elliptical_arc_to H P rx ry rot large_arc_flag sweep_flag x y t)
  | .path_close_subpath => .ok (context.path_close_subpath P)
  | .path_exit => .ok context.path_exit

/-- A command stream handed to the adapter one command after the other. The stream stops at the
first command whose handler yields no adapter state; the adapter returned then is the one that
command was entered with, whose output context holds every call made before that command (the
recursion of the relative move-to makes no call, and an overload without instantiation does
not run). -/
def load_path (H : arc_helpers) (P : PathPolicy) (fuel : Nat) :
    path_adapter → List path_command → path_adapter × Option fault
  | context, [] => (context, none)
  | context, c :: cs =>
    match path_adapter_load_path_policy H P fuel context c with
    | .error e => (context, some e)
    | .ok context => load_path H P fuel context cs

/-- What the member `type` of `path_adapter_if_needed` names (lines 806-840): the output context
itself in the primary template, the adapter in the specialisation. -/
inductive context_kind where
  /-- `typedef OutputContext type` (line 814): paths are loaded into the context directly. -/
  | original_context
  /-- `typedef path_adapter<...> type` (line 832): paths are loaded through the adapter. -/
  | adapter
  deriving DecidableEq, Repr

/-- The selection made by `path_adapter_if_needed` (lines 806-840): the specialisation is chosen
by `boost::enable_if<need_path_adapter<PathPolicy> >` (line 830). -/
def path_adapter_if_needed (P : PathPolicy) : context_kind :=
  if need_path_adapter P then .adapter else .original_context

/-- A path loaded through `path_adapter_if_needed` (lines 806-840): what the output context holds
afterwards. In the primary template the holder is the output context itself and
`load_path_policy` is `LoadPolicy` (lines 814-816), so every command is one call on the output
context, unchanged. In the specialisation the holder is a newly constructed adapter and
`load_path_policy` is `path_adapter_load_path_policy` (lines 832-834); there is no result when the
adapter cannot be constructed. -/
def load_path_if_needed (H : arc_helpers) (P : PathPolicy) (fuel : Nat)
    (original_context : List path_command)
    (cubic_x cubic_y quadratic_x quadratic_y : coordinate_type)
    (cmds : List path_command) : Option (List path_command) :=
  match path_adapter_if_needed P with
  | .original_context => some (original_context ++ cmds)
  | .adapter =>
    match path_adapter.construct P original_context cubic_x cubic_y quadratic_x quadratic_y with
    | none => none
    | some adapter => some (load_path H P fuel adapter cmds).1.output_context

end detail

/-- The absolute abscissa of a coordinate given with tag `t` while the pen is at
`(a.current_x, a.current_y)`. -/
def path_adapter.absolute_x (a : path_adapter) (t : tag) (x : coordinate_type) :
    coordinate_type :=
  match t with
  | .absolute_coordinate => x
  | .relative_coordinate => a.current_x + x

/-- The absolute ordinate of a coordinate given with tag `t` while the pen is at
`(a.current_x, a.current_y)`. -/
def path_adapter.absolute_y (a : path_adapter) (t : tag) (y : coordinate_type) :
    coordinate_type :=
  match t with
  | .absolute_coordinate => y
  | .relative_coordinate => a.current_y + y

/-- The cubic control memory of the Path State. The adapter has such a memory only when its base
is `path_adapter_cubic_bezier_data`, which `no_cubic_bezier_shorthand` selects (lines 123-126);
the memory then holds a point exactly when `last_cubic_bezier_cp_valid` is set. -/
def path_adapter.last_cubic_control (a : path_adapter) (P : PathPolicy) :
    Option (coordinate_type × coordinate_type) :=
  if P.no_cubic_bezier_shorthand && a.last_cubic_bezier_cp_valid then
    some (a.last_cubic_bezier_cp_x, a.last_cubic_bezier_cp_y)
  else none

/-- The quadratic control memory of the Path State. The adapter has such a memory only when its
base is `path_adapter_quadratic_bezier_data` (lines 127-130); the memory then holds a point
exactly when `last_quadratic_bezier_cp_valid` is set. -/
def path_adapter.last_quadratic_control (a : path_adapter) (P : PathPolicy) :
    Option (coordinate_type × coordinate_type) :=
  if path_adapter.has_quadratic_bezier_data P && a.last_quadratic_bezier_cp_valid then
    some (a.last_quadratic_bezier_cp_x, a.last_quadratic_bezier_cp_y)
  else none

/-- The states an adapter object can be in: a valid flag that belongs to a data base the policy
did not select is not part of the object, and the model keeps it cleared. -/
def path_adapter.well_formed (a : path_adapter) (P : PathPolicy) : Bool :=
  (P.no_cubic_bezier_shorthand || !a.last_cubic_bezier_cp_valid)
  && (path_adapter.has_quadratic_bezier_data P || !a.last_quadratic_bezier_cp_valid)

/-- The two branches of the `if` of lines 403-408 (also 425-430 and 445-450), for a given value
`valid` of its condition `this->last_quadratic_bezier_cp_valid`. -/
def path_adapter.quadratic_shorthand_cp_branch (P : PathPolicy) (a : path_adapter)
    (valid : Bool) : path_adapter :=
  if valid then
    path_adapter.set_quadratic_cp P a
      (2 * a.current_x - a.last_quadratic_bezier_cp_x)
      (2 * a.current_y - a.last_quadratic_bezier_cp_y)
  else
    path_adapter.set_quadratic_cp P a a.current_x a.current_y

/-- Whether a command is a move-to. -/
def path_command.is_move_to : path_command → Bool
  | .path_move_to _ _ _ => true
  | _ => false

/-! ## Concrete policies, helpers and streams used by the evaluations below -/

/-- A policy that asks for absolute coordinates and expands the quadratic shorthand; cubic
shorthand is supported. -/
def policy_absolute : PathPolicy :=
  { absolute_coordinates_only := true, no_ortho_line_to := false,
    no_quadratic_bezier_shorthand := true, no_cubic_bezier_shorthand := false,
    quadratic_bezier_as_cubic := false, arc_as_cubic_bezier := false }

/-- A policy that accepts relative coordinates; it rewrites orthogonal lines and expands the
quadratic shorthand. -/
def policy_relative : PathPolicy :=
  { absolute_coordinates_only := false, no_ortho_line_to := true,
    no_quadratic_bezier_shorthand := true, no_cubic_bezier_shorthand := false,
    quadratic_bezier_as_cubic := false, arc_as_cubic_bezier := false }

/-- A policy with `quadratic_bezier_as_cubic` and the `no_cubic_bezier_shorthand` it requires. -/
def policy_quadratic_as_cubic : PathPolicy :=
  { absolute_coordinates_only := false, no_ortho_line_to := false,
    no_quadratic_bezier_shorthand := false, no_cubic_bezier_shorthand := true,
    quadratic_bezier_as_cubic := true, arc_as_cubic_bezier := false }

/-- A policy with `arc_as_cubic_bezier` that expands both shorthands. -/
def policy_arc_as_cubic : PathPolicy :=
  { absolute_coordinates_only := false, no_ortho_line_to := false,
    no_quadratic_bezier_shorthand := true, no_cubic_bezier_shorthand := true,
    quadratic_bezier_as_cubic := false, arc_as_cubic_bezier := true }

/-- Arc helpers that answer every arc with the one segment `(1,1) (2,1) (3,0)`. -/
def helpers_one_segment : arc_helpers :=
  { arc_endpoint_to_center := fun _ _ _ _ _ _ _ _ _ => (0, 0, 0, 0)
    arc_to_bezier := fun _ _ _ _ _ _ _ _ => [⟨1, 1, 2, 1, 3, 0⟩]
    two_pi := 6
    half_pi := 3 / 2 }

/-- Arc helpers that yield no segment at all. -/
def helpers_no_segment : arc_helpers :=
  { arc_endpoint_to_center := fun _ _ _ _ _ _ _ _ _ => (0, 0, 0, 0)
    arc_to_bezier := fun _ _ _ _ _ _ _ _ => []
    two_pi := 6
    half_pi := 3 / 2 }

/-- A policy with all six flags set. -/
def policy_all : PathPolicy :=
  { absolute_coordinates_only := true, no_ortho_line_to := true,
    no_quadratic_bezier_shorthand := true, no_cubic_bezier_shorthand := true,
    quadratic_bezier_as_cubic := true, arc_as_cubic_bezier := true }

/-- A stream with one command of every shape a policy can refuse. -/
def sample_stream : List path_command :=
  [.path_move_to 1 2 .absolute_coordinate,
   .path_line_to_ortho 5 true .relative_coordinate,
   .path_quadratic_bezier_to_shorthand 1 1 .relative_coordinate,
   .path_cubic_bezier_to_shorthand 8 4 9 3 .absolute_coordinate,
   .path_elliptical_arc_to 5 5 0 false true 1 1 .relative_coordinate,
   .path_close_subpath]

/-- A policy with `arc_as_cubic_bezier` alone. -/
def policy_arc_only : PathPolicy :=
  { absolute_coordinates_only := false, no_ortho_line_to := false,
    no_quadratic_bezier_shorthand := false, no_cubic_bezier_shorthand := false,
    quadratic_bezier_as_cubic := false, arc_as_cubic_bezier := true }

/-- A policy with `arc_as_cubic_bezier` that supports the cubic shorthand and expands the
quadratic one. -/
def policy_arc_cubic_shorthand : PathPolicy :=
  { absolute_coordinates_only := false, no_ortho_line_to := false,
    no_quadratic_bezier_shorthand := true, no_cubic_bezier_shorthand := false,
    quadratic_bezier_as_cubic := false, arc_as_cubic_bezier := true }

/-- A policy that asks for absolute coordinates and supports both shorthands. -/
def policy_shorthand_supported : PathPolicy :=
  { absolute_coordinates_only := true, no_ortho_line_to := false,
    no_quadratic_bezier_shorthand := false, no_cubic_bezier_shorthand := false,
    quadratic_bezier_as_cubic := false, arc_as_cubic_bezier := false }

/-- Arc helpers whose endpoint-to-center step answers with the angles `theta1 = 1` and
`theta2 = 0`, and whose subdivision yields one segment that carries the two angles it was given;
the full turn is `6`. -/
def helpers_angles : arc_helpers :=
  { arc_endpoint_to_center := fun _ _ _ _ _ _ _ _ _ => (0, 0, 1, 0)
    arc_to_bezier := fun _ _ _ _ _ theta1 theta2 _ => [⟨theta1, theta2, 0, 0, 0, 0⟩]
    two_pi := 6
    half_pi := 3 / 2 }

/-- A freshly constructed adapter on an empty output context. -/
def fresh : path_adapter := path_adapter.initial [] 0 0 0 0

/-! ## Shared lemmas -/

section lemmas

open path_adapter

/-- The relative `path_move_to` overload of lines 196-208 never returns: whatever the recursion
budget, the call runs out of it. -/
theorem path_move_to_relative_out_of_fuel (P : PathPolicy) (fuel : Nat) (a : path_adapter)
    (x y : coordinate_type) :
    path_move_to_relative P fuel a x y = .error .out_of_fuel := by
  induction fuel generalizing a with
  | zero => rfl
  | succ n ih => simp only [path_move_to_relative, ih]

/-- The loop of lines 646-651: one absolute explicit cubic is forwarded per segment, in the order
they are yielded, and nothing else. -/
theorem foldl_cubic_output_context (P : PathPolicy) (segs : List bezier_segment)
    (a : path_adapter) :
    (segs.foldl
        (fun a it =>
          path_cubic_bezier_to P a it.p1x it.p1y it.p2x it.p2y it.p3x it.p3y
            .absolute_coordinate) a).output_context
      = a.output_context ++ segs.map (fun it =>
          path_command.path_cubic_bezier_to it.p1x it.p1y it.p2x it.p2y it.p3x it.p3y
            .absolute_coordinate) := by
  induction segs generalizing a with
  | nil => simp
  | cons it rest ih =>
    rw [List.foldl_cons, ih]
    cases hC : P.no_cubic_bezier_shorthand <;> cases hQ : has_quadratic_bezier_data P <;>
      simp [path_cubic_bezier_to, forward, set_cubic_cp, set_cubic_cp_base,
        invalidate_last_quadratic_bezier_cp, hC, hQ]

@[simp]
theorem forward_output_context (a : path_adapter) (c : path_command) :
    (forward a c).output_context = a.output_context ++ [c] := rfl

@[simp]
theorem forward_current_x (a : path_adapter) (c : path_command) :
    (forward a c).current_x = a.current_x := rfl

@[simp]
theorem forward_current_y (a : path_adapter) (c : path_command) :
    (forward a c).current_y = a.current_y := rfl

@[simp]
theorem forward_subpath_start_x (a : path_adapter) (c : path_command) :
    (forward a c).subpath_start_x = a.subpath_start_x := rfl

@[simp]
theorem forward_subpath_start_y (a : path_adapter) (c : path_command) :
    (forward a c).subpath_start_y = a.subpath_start_y := rfl

@[simp]
theorem set_cubic_cp_base_output_context (P : PathPolicy) (a : path_adapter) (x y : coordinate_type) :
    (set_cubic_cp_base P a x y).output_context = a.output_context := by
  simp only [non_curve_command, set_cubic_cp, set_quadratic_cp, set_cubic_cp_base,
    invalidate_last_cubic_bezier_cp, set_quadratic_cp_base,
    invalidate_last_quadratic_bezier_cp]
  split_ifs <;> rfl

@[simp]
theorem set_cubic_cp_base_current_x (P : PathPolicy) (a : path_adapter) (x y : coordinate_type) :
    (set_cubic_cp_base P a x y).current_x = a.current_x := by
  simp only [non_curve_command, set_cubic_cp, set_quadratic_cp, set_cubic_cp_base,
    invalidate_last_cubic_bezier_cp, set_quadratic_cp_base,
    invalidate_last_quadratic_bezier_cp]
  split_ifs <;> rfl

@[simp]
theorem set_cubic_cp_base_current_y (P : PathPolicy) (a : path_adapter) (x y : coordinate_type) :
    (set_cubic_cp_base P a x y).current_y = a.current_y := by
  simp only [non_curve_command, set_cubic_cp, set_quadratic_cp, set_cubic_cp_base,
    invalidate_last_cubic_bezier_cp, set_quadratic_cp_base,
    invalidate_last_quadratic_bezier_cp]
  split_ifs <;> rfl

@[simp]
theorem set_cubic_cp_base_subpath_start_x (P : PathPolicy) (a : path_adapter) (x y : coordinate_type) :
    (set_cubic_cp_base P a x y).subpath_start_x = a.subpath_start_x := by
  simp only [non_curve_command, set_cubic_cp, set_quadratic_cp, set_cubic_cp_base,
    invalidate_last_cubic_bezier_cp, set_quadratic_cp_base,
    invalidate_last_quadratic_bezier_cp]
  split_ifs <;> rfl

@[simp]
theorem set_cubic_cp_base_subpath_start_y (P : PathPolicy) (a : path_adapter) (x y : coordinate_type) :
    (set_cubic_cp_base P a x y).subpath_start_y = a.subpath_start_y := by
  simp only [non_curve_command, set_cubic_cp, set_quadratic_cp, set_cubic_cp_base,
    invalidate_last_cubic_bezier_cp, set_quadratic_cp_base,
    invalidate_last_quadratic_bezier_cp]
  split_ifs <;> rfl

@[simp]
theorem invalidate_last_cubic_bezier_cp_output_context (P : PathPolicy) (a : path_adapter) :
    (invalidate_last_cubic_bezier_cp P a).output_context = a.output_context := by
  simp only [non_curve_command, set_cubic_cp, set_quadratic_cp, set_cubic_cp_base,
    invalidate_last_cubic_bezier_cp, set_quadratic_cp_base,
    invalidate_last_quadratic_bezier_cp]
  split_ifs <;> rfl

@[simp]
theorem invalidate_last_cubic_bezier_cp_current_x (P : PathPolicy) (a : path_adapter) :
    (invalidate_last_cubic_bezier_cp P a).current_x = a.current_x := by
  simp only [non_curve_command, set_cubic_cp, set_quadratic_cp, set_cubic_cp_base,
    invalidate_last_cubic_bezier_cp, set_quadratic_cp_base,
    invalidate_last_quadratic_bezier_cp]
  split_ifs <;> rfl

@[simp]
theorem invalidate_last_cubic_bezier_cp_current_y (P : PathPolicy) (a : path_adapter) :
    (invalidate_last_cubic_bezier_cp P a).current_y = a.current_y := by
  simp only [non_curve_command, set_cubic_cp, set_quadratic_cp, set_cubic_cp_base,
    invalidate_last_cubic_bezier_cp, set_quadratic_cp_base,
    invalidate_last_quadratic_bezier_cp]
  split_ifs <;> rfl

@[simp]
theorem invalidate_last_cubic_bezier_cp_subpath_start_x (P : PathPolicy) (a : path_adapter) :
    (invalidate_last_cubic_bezier_cp P a).subpath_start_x = a.subpath_start_x := by
  simp only [non_curve_command, set_cubic_cp, set_quadratic_cp, set_cubic_cp_base,
    invalidate_last_cubic_bezier_cp, set_quadratic_cp_base,
    invalidate_last_quadratic_bezier_cp]
  split_ifs <;> rfl

@[simp]
theorem invalidate_last_cubic_bezier_cp_subpath_start_y (P : PathPolicy) (a : path_adapter) :
    (invalidate_last_cubic_bezier_cp P a).subpath_start_y = a.subpath_start_y := by
  simp only [non_curve_command, set_cubic_cp, set_quadratic_cp, set_cubic_cp_base,
    invalidate_last_cubic_bezier_cp, set_quadratic_cp_base,
    invalidate_last_quadratic_bezier_cp]
  split_ifs <;> rfl

@[simp]
theorem set_quadratic_cp_base_output_context (P : PathPolicy) (a : path_adapter) (x y : coordinate_type) :
    (set_quadratic_cp_base P a x y).output_context = a.output_context := by
  simp only [non_curve_command, set_cubic_cp, set_quadratic_cp, set_cubic_cp_base,
    invalidate_last_cubic_bezier_cp, set_quadratic_cp_base,
    invalidate_last_quadratic_bezier_cp]
  split_ifs <;> rfl

@[simp]
theorem set_quadratic_cp_base_current_x (P : PathPolicy) (a : path_adapter) (x y : coordinate_type) :
    (set_quadratic_cp_base P a x y).current_x = a.current_x := by
  simp only [non_curve_command, set_cubic_cp, set_quadratic_cp, set_cubic_cp_base,
    invalidate_last_cubic_bezier_cp, set_quadratic_cp_base,
    invalidate_last_quadratic_bezier_cp]
  split_ifs <;> rfl

@[simp]
theorem set_quadratic_cp_base_current_y (P : PathPolicy) (a : path_adapter) (x y : coordinate_type) :
    (set_quadratic_cp_base P a x y).current_y = a.current_y := by
  simp only [non_curve_command, set_cubic_cp, set_quadratic_cp, set_cubic_cp_base,
    invalidate_last_cubic_bezier_cp, set_quadratic_cp_base,
    invalidate_last_quadratic_bezier_cp]
  split_ifs <;> rfl

@[simp]
theorem set_quadratic_cp_base_subpath_start_x (P : PathPolicy) (a : path_adapter) (x y : coordinate_type) :
    (set_quadratic_cp_base P a x y).subpath_start_x = a.subpath_start_x := by
  simp only [non_curve_command, set_cubic_cp, set_quadratic_cp, set_cubic_cp_base,
    invalidate_last_cubic_bezier_cp, set_quadratic_cp_base,
    invalidate_last_quadratic_bezier_cp]
  split_ifs <;> rfl

@[simp]
theorem set_quadratic_cp_base_subpath_start_y (P : PathPolicy) (a : path_adapter) (x y : coordinate_type) :
    (set_quadratic_cp_base P a x y).subpath_start_y = a.subpath_start_y := by
  simp only [non_curve_command, set_cubic_cp, set_quadratic_cp, set_cubic_cp_base,
    invalidate_last_cubic_bezier_cp, set_quadratic_cp_base,
    invalidate_last_quadratic_bezier_cp]
  split_ifs <;> rfl

@[simp]
theorem invalidate_last_quadratic_bezier_cp_output_context (P : PathPolicy) (a : path_adapter) :
    (invalidate_last_quadratic_bezier_cp P a).output_context = a.output_context := by
  simp only [non_curve_command, set_cubic_cp, set_quadratic_cp, set_cubic_cp_base,
    invalidate_last_cubic_bezier_cp, set_quadratic_cp_base,
    invalidate_last_quadratic_bezier_cp]
  split_ifs <;> rfl

@[simp]
theorem invalidate_last_quadratic_bezier_cp_current_x (P : PathPolicy) (a : path_adapter) :
    (invalidate_last_quadratic_bezier_cp P a).current_x = a.current_x := by
  simp only [non_curve_command, set_cubic_cp, set_quadratic_cp, set_cubic_cp_base,
    invalidate_last_cubic_bezier_cp, set_quadratic_cp_base,
    invalidate_last_quadratic_bezier_cp]
  split_ifs <;> rfl

@[simp]
theorem invalidate_last_quadratic_bezier_cp_current_y (P : PathPolicy) (a : path_adapter) :
    (invalidate_last_quadratic_bezier_cp P a).current_y = a.current_y := by
  simp only [non_curve_command, set_cubic_cp, set_quadratic_cp, set_cubic_cp_base,
    invalidate_last_cubic_bezier_cp, set_quadratic_cp_base,
    invalidate_last_quadratic_bezier_cp]
  split_ifs <;> rfl

@[simp]
theorem invalidate_last_quadratic_bezier_cp_subpath_start_x (P : PathPolicy) (a : path_adapter) :
    (invalidate_last_quadratic_bezier_cp P a).subpath_start_x = a.subpath_start_x := by
  simp only [non_curve_command, set_cubic_cp, set_quadratic_cp, set_cubic_cp_base,
    invalidate_last_cubic_bezier_cp, set_quadratic_cp_base,
    invalidate_last_quadratic_bezier_cp]
  split_ifs <;> rfl

@[simp]
theorem invalidate_last_quadratic_bezier_cp_subpath_start_y (P : PathPolicy) (a : path_adapter) :
    (invalidate_last_quadratic_bezier_cp P a).subpath_start_y = a.subpath_start_y := by
  simp only [non_curve_command, set_cubic_cp, set_quadratic_cp, set_cubic_cp_base,
    invalidate_last_cubic_bezier_cp, set_quadratic_cp_base,
    invalidate_last_quadratic_bezier_cp]
  split_ifs <;> rfl

@[simp]
theorem non_curve_command_output_context (P : PathPolicy) (a : path_adapter) :
    (non_curve_command P a).output_context = a.output_context := by
  simp only [non_curve_command, set_cubic_cp, set_quadratic_cp, set_cubic_cp_base,
    invalidate_last_cubic_bezier_cp, set_quadratic_cp_base,
    invalidate_last_quadratic_bezier_cp]
  split_ifs <;> rfl

@[simp]
theorem non_curve_command_current_x (P : PathPolicy) (a : path_adapter) :
    (non_curve_command P a).current_x = a.current_x := by
  simp only [non_curve_command, set_cubic_cp, set_quadratic_cp, set_cubic_cp_base,
    invalidate_last_cubic_bezier_cp, set_quadratic_cp_base,
    invalidate_last_quadratic_bezier_cp]
  split_ifs <;> rfl

@[simp]
theorem non_curve_command_current_y (P : PathPolicy) (a : path_adapter) :
    (non_curve_command P a).current_y = a.current_y := by
  simp only [non_curve_command, set_cubic_cp, set_quadratic_cp, set_cubic_cp_base,
    invalidate_last_cubic_bezier_cp, set_quadratic_cp_base,
    invalidate_last_quadratic_bezier_cp]
  split_ifs <;> rfl

@[simp]
theorem non_curve_command_subpath_start_x (P : PathPolicy) (a : path_adapter) :
    (non_curve_command P a).subpath_start_x = a.subpath_start_x := by
  simp only [non_curve_command, set_cubic_cp, set_quadratic_cp, set_cubic_cp_base,
    invalidate_last_cubic_bezier_cp, set_quadratic_cp_base,
    invalidate_last_quadratic_bezier_cp]
  split_ifs <;> rfl

@[simp]
theorem non_curve_command_subpath_start_y (P : PathPolicy) (a : path_adapter) :
    (non_curve_command P a).subpath_start_y = a.subpath_start_y := by
  simp only [non_curve_command, set_cubic_cp, set_quadratic_cp, set_cubic_cp_base,
    invalidate_last_cubic_bezier_cp, set_quadratic_cp_base,
    invalidate_last_quadratic_bezier_cp]
  split_ifs <;> rfl

@[simp]
theorem set_cubic_cp_output_context (P : PathPolicy) (a : path_adapter) (x y : coordinate_type) :
    (set_cubic_cp P a x y).output_context = a.output_context := by
  simp only [non_curve_command, set_cubic_cp, set_quadratic_cp, set_cubic_cp_base,
    invalidate_last_cubic_bezier_cp, set_quadratic_cp_base,
    invalidate_last_quadratic_bezier_cp]
  split_ifs <;> rfl

@[simp]
theorem set_cubic_cp_current_x (P : PathPolicy) (a : path_adapter) (x y : coordinate_type) :
    (set_cubic_cp P a x y).current_x = a.current_x := by
  simp only [non_curve_command, set_cubic_cp, set_quadratic_cp, set_cubic_cp_base,
    invalidate_last_cubic_bezier_cp, set_quadratic_cp_base,
    invalidate_last_quadratic_bezier_cp]
  split_ifs <;> rfl

@[simp]
theorem set_cubic_cp_current_y (P : PathPolicy) (a : path_adapter) (x y : coordinate_type) :
    (set_cubic_cp P a x y).current_y = a.current_y := by
  simp only [non_curve_command, set_cubic_cp, set_quadratic_cp, set_cubic_cp_base,
    invalidate_last_cubic_bezier_cp, set_quadratic_cp_base,
    invalidate_last_quadratic_bezier_cp]
  split_ifs <;> rfl

@[simp]
theorem set_cubic_cp_subpath_start_x (P : PathPolicy) (a : path_adapter) (x y : coordinate_type) :
    (set_cubic_cp P a x y).subpath_start_x = a.subpath_start_x := by
  simp only [non_curve_command, set_cubic_cp, set_quadratic_cp, set_cubic_cp_base,
    invalidate_last_cubic_bezier_cp, set_quadratic_cp_base,
    invalidate_last_quadratic_bezier_cp]
  split_ifs <;> rfl

@[simp]
theorem set_cubic_cp_subpath_start_y (P : PathPolicy) (a : path_adapter) (x y : coordinate_type) :
    (set_cubic_cp P a x y).subpath_start_y = a.subpath_start_y := by
  simp only [non_curve_command, set_cubic_cp, set_quadratic_cp, set_cubic_cp_base,
    invalidate_last_cubic_bezier_cp, set_quadratic_cp_base,
    invalidate_last_quadratic_bezier_cp]
  split_ifs <;> rfl

@[simp]
theorem set_quadratic_cp_output_context (P : PathPolicy) (a : path_adapter) (x y : coordinate_type) :
    (set_quadratic_cp P a x y).output_context = a.output_context := by
  simp only [non_curve_command, set_cubic_cp, set_quadratic_cp, set_cubic_cp_base,
    invalidate_last_cubic_bezier_cp, set_quadratic_cp_base,
    invalidate_last_quadratic_bezier_cp]
  split_ifs <;> rfl

@[simp]
theorem set_quadratic_cp_current_x (P : PathPolicy) (a : path_adapter) (x y : coordinate_type) :
    (set_quadratic_cp P a x y).current_x = a.current_x := by
  simp only [non_curve_command, set_cubic_cp, set_quadratic_cp, set_cubic_cp_base,
    invalidate_last_cubic_bezier_cp, set_quadratic_cp_base,
    invalidate_last_quadratic_bezier_cp]
  split_ifs <;> rfl

@[simp]
theorem set_quadratic_cp_current_y (P : PathPolicy) (a : path_adapter) (x y : coordinate_type) :
    (set_quadratic_cp P a x y).current_y = a.current_y := by
  simp only [non_curve_command, set_cubic_cp, set_quadratic_cp, set_cubic_cp_base,
    invalidate_last_cubic_bezier_cp, set_quadratic_cp_base,
    invalidate_last_quadratic_bezier_cp]
  split_ifs <;> rfl

@[simp]
theorem set_quadratic_cp_subpath_start_x (P : PathPolicy) (a : path_adapter) (x y : coordinate_type) :
    (set_quadratic_cp P a x y).subpath_start_x = a.subpath_start_x := by
  simp only [non_curve_command, set_cubic_cp, set_quadratic_cp, set_cubic_cp_base,
    invalidate_last_cubic_bezier_cp, set_quadratic_cp_base,
    invalidate_last_quadratic_bezier_cp]
  split_ifs <;> rfl

@[simp]
theorem set_quadratic_cp_subpath_start_y (P : PathPolicy) (a : path_adapter) (x y : coordinate_type) :
    (set_quadratic_cp P a x y).subpath_start_y = a.subpath_start_y := by
  simp only [non_curve_command, set_cubic_cp, set_quadratic_cp, set_cubic_cp_base,
    invalidate_last_cubic_bezier_cp, set_quadratic_cp_base,
    invalidate_last_quadratic_bezier_cp]
  split_ifs <;> rfl

/-- One command keeps the output context within the shapes the policy accepts. -/
theorem accepts_shape_step (H : arc_helpers) (P : PathPolicy) (fuel : Nat)
    (a a1 : path_adapter) (c : path_command)
    (hc : ∀ d ∈ a.output_context, P.accepts_shape d = true)
    (h : detail.path_adapter_load_path_policy H P fuel a c = .ok a1) :
    ∀ d ∈ a1.output_context, P.accepts_shape d = true := by
  intro d hd
  cases c with
  | path_move_to x y t =>
    cases t <;> cases hA : P.absolute_coordinates_only <;>
      simp [detail.path_adapter_load_path_policy, path_move_to,
        path_move_to_relative_out_of_fuel, hA] at h <;>
      subst h <;>
      simp [path_move_to_absolute] at hd <;>
      rcases hd with hd | rfl <;>
      first
        | exact hc d hd
        | rfl
  | path_line_to x y t =>
    simp only [detail.path_adapter_load_path_policy, Except.ok.injEq] at h
    subst h
    cases t <;> cases hA : P.absolute_coordinates_only <;>
      simp [path_line_to, hA] at hd <;>
      rcases hd with hd | rfl <;>
      first
        | exact hc d hd
        | rfl
  | path_line_to_ortho coord horizontal t =>
    simp only [detail.path_adapter_load_path_policy, Except.ok.injEq] at h
    subst h
    cases t <;> cases horizontal <;> cases hA : P.absolute_coordinates_only <;>
      cases hO : P.no_ortho_line_to <;>
      simp [path_line_to_ortho, path_line_to, hA, hO] at hd <;>
      rcases hd with hd | rfl <;>
      first
        | exact hc d hd
        | rfl
        | simp [PathPolicy.accepts_shape, hO]
  | path_quadratic_bezier_to x1 y1 x y t =>
    simp only [detail.path_adapter_load_path_policy, Except.ok.injEq] at h
    subst h
    cases t <;> cases hA : P.absolute_coordinates_only <;>
      cases hQ : P.quadratic_bezier_as_cubic <;>
      simp [path_quadratic_bezier_to, path_cubic_bezier_to, hA, hQ] at hd <;>
      rcases hd with hd | rfl <;>
      first
        | exact hc d hd
        | rfl
        | simp [PathPolicy.accepts_shape, hQ]
  | path_quadratic_bezier_to_shorthand x y t =>
    cases t <;> cases hA : P.absolute_coordinates_only <;>
      cases hQ : P.quadratic_bezier_as_cubic <;>
      cases hS : P.no_quadratic_bezier_shorthand <;>
      cases hv : a.last_quadratic_bezier_cp_valid <;>
      simp [detail.path_adapter_load_path_policy, path_quadratic_bezier_to_shorthand,
        record_quadratic_shorthand_cp, read_last_quadratic_bezier_cp_valid,
        has_quadratic_bezier_data, hA, hQ, hS, hv] at h <;>
      subst h <;>
      simp [path_quadratic_bezier_to, path_cubic_bezier_to, hA, hQ] at hd <;>
      rcases hd with hd | rfl <;>
      first
        | exact hc d hd
        | rfl
        | simp [PathPolicy.accepts_shape, hQ]
  | path_cubic_bezier_to x1 y1 x2 y2 x y t =>
    simp only [detail.path_adapter_load_path_policy, Except.ok.injEq] at h
    subst h
    cases t <;> cases hA : P.absolute_coordinates_only <;>
      simp [path_cubic_bezier_to, hA] at hd <;>
      rcases hd with hd | rfl <;>
      first
        | exact hc d hd
        | rfl
  | path_cubic_bezier_to_shorthand x2 y2 x y t =>
    simp only [detail.path_adapter_load_path_policy, Except.ok.injEq] at h
    subst h
    cases t <;> cases hA : P.absolute_coordinates_only <;>
      cases hC : P.no_cubic_bezier_shorthand <;>
      cases hv : a.last_cubic_bezier_cp_valid <;>
      simp [path_cubic_bezier_to_shorthand, path_cubic_bezier_to, hA, hC, hv] at hd <;>
      rcases hd with hd | rfl <;>
      first
        | exact hc d hd
        | rfl
        | simp [PathPolicy.accepts_shape, hC]
  | path_elliptical_arc_to rx ry rot large_arc_flag sweep_flag x y t =>
    simp only [detail.path_adapter_load_path_policy, Except.ok.injEq] at h
    subst h
    cases t <;> cases hA : P.absolute_coordinates_only <;>
      cases hR : P.arc_as_cubic_bezier <;>
      simp [path_elliptical_arc_to, path_elliptical_arc_to_absolute, hA, hR,
        foldl_cubic_output_context] at hd <;>
      first
        | (rcases hd with hd | rfl
           · exact hc d hd
           · simp [PathPolicy.accepts_shape, hR])
        | (rcases hd with hd | ⟨it, -, rfl⟩
           · exact hc d hd
           · rfl)
  | path_close_subpath =>
    simp only [detail.path_adapter_load_path_policy, Except.ok.injEq] at h
    subst h
    simp [path_close_subpath] at hd
    rcases hd with hd | rfl
    · exact hc d hd
    · rfl
  | path_exit =>
    simp only [detail.path_adapter_load_path_policy, Except.ok.injEq] at h
    subst h
    simp [path_exit] at hd
    rcases hd with hd | rfl
    · exact hc d hd
    · rfl

/-- A command stream keeps the output context within the shapes the policy accepts. -/
theorem accepts_shape_load_path (H : arc_helpers) (P : PathPolicy) (fuel : Nat)
    (cmds : List path_command) (a : path_adapter)
    (hc : ∀ d ∈ a.output_context, P.accepts_shape d = true) :
    ∀ d ∈ (detail.load_path H P fuel a cmds).1.output_context, P.accepts_shape d = true := by
  induction cmds generalizing a with
  | nil => simpa [detail.load_path] using hc
  | cons c cs ih =>
    cases h : detail.path_adapter_load_path_policy H P fuel a c with
    | error e => simpa [detail.load_path, h] using hc
    | ok a1 =>
      simpa [detail.load_path, h] using ih a1 (accepts_shape_step H P fuel a a1 c hc h)

/-- What one call of the absolute explicit cubic handler (lines 495-509) leaves behind: the pen
at the endpoint, the second control point in the cubic memory when the adapter has one, and no
quadratic control point. -/
theorem path_cubic_bezier_to_absolute_state (P : PathPolicy) (a : path_adapter)
    (x1 y1 x2 y2 x y : coordinate_type) :
    (path_cubic_bezier_to P a x1 y1 x2 y2 x y .absolute_coordinate).current_x = x ∧
    (path_cubic_bezier_to P a x1 y1 x2 y2 x y .absolute_coordinate).current_y = y ∧
    (path_cubic_bezier_to P a x1 y1 x2 y2 x y .absolute_coordinate).last_cubic_control P
      = (if P.no_cubic_bezier_shorthand then some (x2, y2) else none) ∧
    (path_cubic_bezier_to P a x1 y1 x2 y2 x y .absolute_coordinate).last_quadratic_control P
      = none := by
  cases hC : P.no_cubic_bezier_shorthand <;> cases hQ : has_quadratic_bezier_data P <;>
    simp [path_cubic_bezier_to, last_cubic_control, last_quadratic_control, forward,
      set_cubic_cp, set_cubic_cp_base, invalidate_last_quadratic_bezier_cp, hC, hQ]

/-- The loop of lines 646-651 keeps "at most one control memory holds a point". -/
theorem foldl_cubic_at_most_one (P : PathPolicy) (segs : List bezier_segment)
    (a : path_adapter)
    (hc : a.last_cubic_control P = none ∨ a.last_quadratic_control P = none) :
    (segs.foldl
        (fun a it =>
          path_cubic_bezier_to P a it.p1x it.p1y it.p2x it.p2y it.p3x it.p3y
            .absolute_coordinate) a).last_cubic_control P = none ∨
    (segs.foldl
        (fun a it =>
          path_cubic_bezier_to P a it.p1x it.p1y it.p2x it.p2y it.p3x it.p3y
            .absolute_coordinate) a).last_quadratic_control P = none := by
  induction segs generalizing a with
  | nil => simpa using hc
  | cons it rest ih =>
    rw [List.foldl_cons]
    exact ih _ (Or.inr (path_cubic_bezier_to_absolute_state P a _ _ _ _ _ _).2.2.2)

/-- One command keeps "at most one control memory holds a point". -/
theorem at_most_one_control_step (H : arc_helpers) (P : PathPolicy) (fuel : Nat)
    (a a1 : path_adapter) (c : path_command)
    (hc : a.last_cubic_control P = none ∨ a.last_quadratic_control P = none)
    (h : detail.path_adapter_load_path_policy H P fuel a c = .ok a1) :
    a1.last_cubic_control P = none ∨ a1.last_quadratic_control P = none := by
  cases c with
  | path_move_to x y t =>
    cases t <;> cases hA : P.absolute_coordinates_only <;>
      simp [detail.path_adapter_load_path_policy, path_move_to,
        path_move_to_relative_out_of_fuel, hA] at h <;>
      subst h <;>
      cases hC : P.no_cubic_bezier_shorthand <;> cases hQ : has_quadratic_bezier_data P <;>
      simp [path_move_to_absolute, last_cubic_control, last_quadratic_control, forward,
        non_curve_command, invalidate_last_cubic_bezier_cp,
        invalidate_last_quadratic_bezier_cp, hC, hQ]
  | path_line_to x y t =>
    simp only [detail.path_adapter_load_path_policy, Except.ok.injEq] at h
    subst h
    cases t <;> cases hA : P.absolute_coordinates_only <;>
      cases hC : P.no_cubic_bezier_shorthand <;> cases hQ : has_quadratic_bezier_data P <;>
      simp [path_line_to, last_cubic_control, last_quadratic_control, forward,
        non_curve_command, invalidate_last_cubic_bezier_cp,
        invalidate_last_quadratic_bezier_cp, hA, hC, hQ]
  | path_line_to_ortho coord horizontal t =>
    simp only [detail.path_adapter_load_path_policy, Except.ok.injEq] at h
    subst h
    cases t <;> cases horizontal <;> cases hA : P.absolute_coordinates_only <;>
      cases hO : P.no_ortho_line_to <;>
      cases hC : P.no_cubic_bezier_shorthand <;> cases hQ : has_quadratic_bezier_data P <;>
      simp [path_line_to_ortho, path_line_to, last_cubic_control, last_quadratic_control,
        forward, non_curve_command, invalidate_last_cubic_bezier_cp,
        invalidate_last_quadratic_bezier_cp, hA, hO, hC, hQ]
  | path_quadratic_bezier_to x1 y1 x y t =>
    simp only [detail.path_adapter_load_path_policy, Except.ok.injEq] at h
    subst h
    cases t <;> cases hA : P.absolute_coordinates_only <;>
      cases hC : P.no_cubic_bezier_shorthand <;>
      cases hS : P.no_quadratic_bezier_shorthand <;>
      cases hQ : P.quadratic_bezier_as_cubic <;>
      simp [path_quadratic_bezier_to, path_cubic_bezier_to, last_cubic_control,
        last_quadratic_control, forward, set_cubic_cp, set_quadratic_cp, set_cubic_cp_base,
        set_quadratic_cp_base, invalidate_last_cubic_bezier_cp,
        invalidate_last_quadratic_bezier_cp, has_quadratic_bezier_data, hA, hC, hS, hQ]
  | path_quadratic_bezier_to_shorthand x y t =>
    cases t <;> cases hA : P.absolute_coordinates_only <;>
      cases hC : P.no_cubic_bezier_shorthand <;>
      cases hS : P.no_quadratic_bezier_shorthand <;>
      cases hQ : P.quadratic_bezier_as_cubic <;>
      cases hv : a.last_quadratic_bezier_cp_valid <;>
      simp [detail.path_adapter_load_path_policy, path_quadratic_bezier_to_shorthand,
        record_quadratic_shorthand_cp, read_last_quadratic_bezier_cp_valid,
        has_quadratic_bezier_data, hA, hS, hQ, hv] at h <;>
      subst h <;>
      simp [path_quadratic_bezier_to, path_cubic_bezier_to, last_cubic_control,
        last_quadratic_control, forward, set_cubic_cp, set_quadratic_cp, set_cubic_cp_base,
        set_quadratic_cp_base, invalidate_last_cubic_bezier_cp,
        invalidate_last_quadratic_bezier_cp, has_quadratic_bezier_data, hA, hC, hS, hQ]
  | path_cubic_bezier_to x1 y1 x2 y2 x y t =>
    simp only [detail.path_adapter_load_path_policy, Except.ok.injEq] at h
    subst h
    cases t <;> cases hA : P.absolute_coordinates_only <;>
      cases hC : P.no_cubic_bezier_shorthand <;> cases hQ : has_quadratic_bezier_data P <;>
      simp [path_cubic_bezier_to, last_cubic_control, last_quadratic_control, forward,
        set_cubic_cp, set_cubic_cp_base, invalidate_last_quadratic_bezier_cp, hA, hC, hQ]
  | path_cubic_bezier_to_shorthand x2 y2 x y t =>
    simp only [detail.path_adapter_load_path_policy, Except.ok.injEq] at h
    subst h
    cases t <;> cases hA : P.absolute_coordinates_only <;>
      cases hC : P.no_cubic_bezier_shorthand <;> cases hQ : has_quadratic_bezier_data P <;>
      cases hv : a.last_cubic_bezier_cp_valid <;>
      simp [path_cubic_bezier_to_shorthand, path_cubic_bezier_to, last_cubic_control,
        last_quadratic_control, forward, set_cubic_cp, set_cubic_cp_base,
        invalidate_last_quadratic_bezier_cp, hA, hC, hQ, hv]
  | path_elliptical_arc_to rx ry rot large_arc_flag sweep_flag x y t =>
    simp only [detail.path_adapter_load_path_policy, Except.ok.injEq] at h
    subst h
    cases hR : P.arc_as_cubic_bezier
    · cases t <;> cases hA : P.absolute_coordinates_only <;>
        cases hC : P.no_cubic_bezier_shorthand <;> cases hQ : has_quadratic_bezier_data P <;>
        simp [path_elliptical_arc_to, path_elliptical_arc_to_absolute, last_cubic_control,
          last_quadratic_control, forward, non_curve_command, invalidate_last_cubic_bezier_cp,
          invalidate_last_quadratic_bezier_cp, hR, hA, hC, hQ]
    · cases t <;>
        simp only [path_elliptical_arc_to, path_elliptical_arc_to_absolute, hR, Bool.or_true,
          if_true] <;>
        exact foldl_cubic_at_most_one P _ a hc
  | path_close_subpath =>
    simp only [detail.path_adapter_load_path_policy, Except.ok.injEq] at h
    subst h
    cases hC : P.no_cubic_bezier_shorthand <;> cases hQ : has_quadratic_bezier_data P <;>
      simp [path_close_subpath, last_cubic_control, last_quadratic_control, forward,
        non_curve_command, invalidate_last_cubic_bezier_cp,
        invalidate_last_quadratic_bezier_cp, hC, hQ]
  | path_exit =>
    simp only [detail.path_adapter_load_path_policy, Except.ok.injEq] at h
    subst h
    simpa [path_exit, forward, last_cubic_control, last_quadratic_control] using hc

/-- A command stream keeps "at most one control memory holds a point". -/
theorem at_most_one_control_load_path (H : arc_helpers) (P : PathPolicy) (fuel : Nat)
    (cmds : List path_command) (a : path_adapter)
    (hc : a.last_cubic_control P = none ∨ a.last_quadratic_control P = none) :
    (detail.load_path H P fuel a cmds).1.last_cubic_control P = none ∨
    (detail.load_path H P fuel a cmds).1.last_quadratic_control P = none := by
  induction cmds generalizing a with
  | nil => simpa [detail.load_path] using hc
  | cons c cs ih =>
    cases h : detail.path_adapter_load_path_policy H P fuel a c with
    | error e => simpa [detail.load_path, h] using hc
    | ok a1 =>
      simpa [detail.load_path, h] using ih a1 (at_most_one_control_step H P fuel a a1 c hc h)

/-- The loop of lines 646-651 keeps the adapter well formed. -/
theorem foldl_cubic_well_formed (P : PathPolicy) (segs : List bezier_segment)
    (a : path_adapter) (hw : a.well_formed P = true) :
    (segs.foldl
        (fun a it =>
          path_cubic_bezier_to P a it.p1x it.p1y it.p2x it.p2y it.p3x it.p3y
            .absolute_coordinate) a).well_formed P = true := by
  induction segs generalizing a with
  | nil => simpa using hw
  | cons it rest ih =>
    rw [List.foldl_cons]
    apply ih
    cases hC : P.no_cubic_bezier_shorthand <;> cases hQ : has_quadratic_bezier_data P <;>
      simp_all [path_cubic_bezier_to, well_formed, forward, set_cubic_cp, set_cubic_cp_base,
        invalidate_last_quadratic_bezier_cp]

/-- One command keeps the adapter well formed. -/
theorem well_formed_step (H : arc_helpers) (P : PathPolicy) (fuel : Nat)
    (a a1 : path_adapter) (c : path_command) (hw : a.well_formed P = true)
    (h : detail.path_adapter_load_path_policy H P fuel a c = .ok a1) :
    a1.well_formed P = true := by
  cases c with
  | path_move_to x y t =>
    cases t <;> cases hA : P.absolute_coordinates_only <;>
      simp [detail.path_adapter_load_path_policy, path_move_to,
        path_move_to_relative_out_of_fuel, hA] at h <;>
      subst h <;>
      cases hC : P.no_cubic_bezier_shorthand <;> cases hQ : has_quadratic_bezier_data P <;>
      simp_all [path_move_to_absolute, well_formed, forward, non_curve_command,
        invalidate_last_cubic_bezier_cp, invalidate_last_quadratic_bezier_cp]
  | path_line_to x y t =>
    simp only [detail.path_adapter_load_path_policy, Except.ok.injEq] at h
    subst h
    cases t <;> cases hA : P.absolute_coordinates_only <;>
      cases hC : P.no_cubic_bezier_shorthand <;> cases hQ : has_quadratic_bezier_data P <;>
      simp_all [path_line_to, well_formed, forward, non_curve_command,
        invalidate_last_cubic_bezier_cp, invalidate_last_quadratic_bezier_cp]
  | path_line_to_ortho coord horizontal t =>
    simp only [detail.path_adapter_load_path_policy, Except.ok.injEq] at h
    subst h
    cases t <;> cases horizontal <;> cases hA : P.absolute_coordinates_only <;>
      cases hO : P.no_ortho_line_to <;>
      cases hC : P.no_cubic_bezier_shorthand <;> cases hQ : has_quadratic_bezier_data P <;>
      simp_all [path_line_to_ortho, path_line_to, well_formed, forward, non_curve_command,
        invalidate_last_cubic_bezier_cp, invalidate_last_quadratic_bezier_cp]
  | path_quadratic_bezier_to x1 y1 x y t =>
    simp only [detail.path_adapter_load_path_policy, Except.ok.injEq] at h
    subst h
    cases t <;> cases hA : P.absolute_coordinates_only <;>
      cases hC : P.no_cubic_bezier_shorthand <;>
      cases hS : P.no_quadratic_bezier_shorthand <;>
      cases hQ : P.quadratic_bezier_as_cubic <;>
      simp_all [path_quadratic_bezier_to, path_cubic_bezier_to, well_formed, forward,
        set_cubic_cp, set_quadratic_cp, set_cubic_cp_base, set_quadratic_cp_base,
        invalidate_last_cubic_bezier_cp, invalidate_last_quadratic_bezier_cp,
        has_quadratic_bezier_data]
  | path_quadratic_bezier_to_shorthand x y t =>
    cases t <;> cases hA : P.absolute_coordinates_only <;>
      cases hC : P.no_cubic_bezier_shorthand <;>
      cases hS : P.no_quadratic_bezier_shorthand <;>
      cases hQ : P.quadratic_bezier_as_cubic <;>
      cases hv : a.last_quadratic_bezier_cp_valid <;>
      simp [detail.path_adapter_load_path_policy, path_quadratic_bezier_to_shorthand,
        record_quadratic_shorthand_cp, read_last_quadratic_bezier_cp_valid,
        has_quadratic_bezier_data, hA, hS, hQ, hv] at h <;>
      subst h <;>
      simp_all [path_quadratic_bezier_to, path_cubic_bezier_to, well_formed, forward,
        set_cubic_cp, set_quadratic_cp, set_cubic_cp_base, set_quadratic_cp_base,
        invalidate_last_cubic_bezier_cp, invalidate_last_quadratic_bezier_cp,
        has_quadratic_bezier_data]
  | path_cubic_bezier_to x1 y1 x2 y2 x y t =>
    simp only [detail.path_adapter_load_path_policy, Except.ok.injEq] at h
    subst h
    cases t <;> cases hA : P.absolute_coordinates_only <;>
      cases hC : P.no_cubic_bezier_shorthand <;> cases hQ : has_quadratic_bezier_data P <;>
      simp_all [path_cubic_bezier_to, well_formed, forward, set_cubic_cp, set_cubic_cp_base,
        invalidate_last_quadratic_bezier_cp]
  | path_cubic_bezier_to_shorthand x2 y2 x y t =>
    simp only [detail.path_adapter_load_path_policy, Except.ok.injEq] at h
    subst h
    cases t <;> cases hA : P.absolute_coordinates_only <;>
      cases hC : P.no_cubic_bezier_shorthand <;> cases hQ : has_quadratic_bezier_data P <;>
      cases hv : a.last_cubic_bezier_cp_valid <;>
      simp_all [path_cubic_bezier_to_shorthand, path_cubic_bezier_to, well_formed, forward,
        set_cubic_cp, set_cubic_cp_base, invalidate_last_quadratic_bezier_cp]
  | path_elliptical_arc_to rx ry rot large_arc_flag sweep_flag x y t =>
    simp only [detail.path_adapter_load_path_policy, Except.ok.injEq] at h
    subst h
    cases hR : P.arc_as_cubic_bezier
    · cases t <;> cases hA : P.absolute_coordinates_only <;>
        cases hC : P.no_cubic_bezier_shorthand <;> cases hQ : has_quadratic_bezier_data P <;>
        simp_all [path_elliptical_arc_to, path_elliptical_arc_to_absolute, well_formed,
          forward, non_curve_command, invalidate_last_cubic_bezier_cp,
          invalidate_last_quadratic_bezier_cp]
    · cases t <;>
        simp only [path_elliptical_arc_to, path_elliptical_arc_to_absolute, hR, Bool.or_true,
          if_true] <;>
        exact foldl_cubic_well_formed P _ a hw
  | path_close_subpath =>
    simp only [detail.path_adapter_load_path_policy, Except.ok.injEq] at h
    subst h
    cases hC : P.no_cubic_bezier_shorthand <;> cases hQ : has_quadratic_bezier_data P <;>
      simp_all [path_close_subpath, well_formed, forward, non_curve_command,
        invalidate_last_cubic_bezier_cp, invalidate_last_quadratic_bezier_cp]
  | path_exit =>
    simp only [detail.path_adapter_load_path_policy, Except.ok.injEq] at h
    subst h
    simpa [path_exit, forward, well_formed] using hw

/-- A command stream keeps the adapter well formed. -/
theorem well_formed_load_path (H : arc_helpers) (P : PathPolicy) (fuel : Nat)
    (cmds : List path_command) (a : path_adapter) (hw : a.well_formed P = true) :
    (detail.load_path H P fuel a cmds).1.well_formed P = true := by
  induction cmds generalizing a with
  | nil => simpa [detail.load_path] using hw
  | cons c cs ih =>
    cases h : detail.path_adapter_load_path_policy H P fuel a c with
    | error e => simpa [detail.load_path, h] using hw
    | ok a1 =>
      simpa [detail.load_path, h] using ih a1 (well_formed_step H P fuel a a1 c hw h)

/-- In a well-formed adapter the two valid flags are not both set as soon as one of the two
control memories is absent. -/
theorem valid_flags_of_control_memories (P : PathPolicy) (a : path_adapter)
    (hw : a.well_formed P = true)
    (hc : a.last_cubic_control P = none ∨ a.last_quadratic_control P = none) :
    (a.last_cubic_bezier_cp_valid && a.last_quadratic_bezier_cp_valid) = false := by
  cases hC : P.no_cubic_bezier_shorthand <;> cases hQ : has_quadratic_bezier_data P <;>
    cases hv : a.last_cubic_bezier_cp_valid <;>
    cases hq : a.last_quadratic_bezier_cp_valid <;>
    simp_all [well_formed, last_cubic_control, last_quadratic_control]

/-- The state the segment loop of lines 646-651 ends in when it runs at least once. -/
theorem foldl_cubic_state_concat (P : PathPolicy) (segs : List bezier_segment)
    (it : bezier_segment) (a : path_adapter) :
    ((segs ++ [it]).foldl
        (fun a it =>
          path_cubic_bezier_to P a it.p1x it.p1y it.p2x it.p2y it.p3x it.p3y
            .absolute_coordinate) a).current_x = it.p3x ∧
    ((segs ++ [it]).foldl
        (fun a it =>
          path_cubic_bezier_to P a it.p1x it.p1y it.p2x it.p2y it.p3x it.p3y
            .absolute_coordinate) a).current_y = it.p3y ∧
    ((segs ++ [it]).foldl
        (fun a it =>
          path_cubic_bezier_to P a it.p1x it.p1y it.p2x it.p2y it.p3x it.p3y
            .absolute_coordinate) a).last_cubic_control P
      = (if P.no_cubic_bezier_shorthand then some (it.p2x, it.p2y) else none) ∧
    ((segs ++ [it]).foldl
        (fun a it =>
          path_cubic_bezier_to P a it.p1x it.p1y it.p2x it.p2y it.p3x it.p3y
            .absolute_coordinate) a).last_quadratic_control P = none := by
  rw [List.foldl_append, List.foldl_cons, List.foldl_nil]
  exact path_cubic_bezier_to_absolute_state P _ _ _ _ _ _ _

/-- The shared tail of the forwarding overloads is the member read followed by the branch the
value read selects. -/
theorem record_quadratic_shorthand_cp_eq (P : PathPolicy) (a : path_adapter) :
    record_quadratic_shorthand_cp P a
      = match read_last_quadratic_bezier_cp_valid P a with
        | .error e => .error e
        | .ok valid => .ok (quadratic_shorthand_cp_branch P a valid) := by
  unfold record_quadratic_shorthand_cp quadratic_shorthand_cp_branch
  cases read_last_quadratic_bezier_cp_valid P a with
  | error e => rfl
  | ok valid => cases valid <;> rfl

/-- The loop of lines 646-651 leaves the subpath start alone. -/
theorem foldl_cubic_subpath_start (P : PathPolicy) (segs : List bezier_segment)
    (a : path_adapter) :
    (segs.foldl
        (fun a it =>
          path_cubic_bezier_to P a it.p1x it.p1y it.p2x it.p2y it.p3x it.p3y
            .absolute_coordinate) a).subpath_start_x = a.subpath_start_x ∧
    (segs.foldl
        (fun a it =>
          path_cubic_bezier_to P a it.p1x it.p1y it.p2x it.p2y it.p3x it.p3y
            .absolute_coordinate) a).subpath_start_y = a.subpath_start_y := by
  induction segs generalizing a with
  | nil => simp
  | cons it rest ih =>
    rw [List.foldl_cons]
    obtain ⟨hx, hy⟩ := ih (path_cubic_bezier_to P a it.p1x it.p1y it.p2x it.p2y it.p3x it.p3y
      .absolute_coordinate)
    rw [hx, hy]
    simp [path_cubic_bezier_to]

/-- A command that is not a move-to leaves the subpath start alone. -/
theorem subpath_start_step (H : arc_helpers) (P : PathPolicy) (fuel : Nat)
    (a a1 : path_adapter) (c : path_command) (hm : c.is_move_to = false)
    (h : detail.path_adapter_load_path_policy H P fuel a c = .ok a1) :
    a1.subpath_start_x = a.subpath_start_x ∧ a1.subpath_start_y = a.subpath_start_y := by
  cases c with
  | path_move_to x y t => simp [path_command.is_move_to] at hm
  | path_line_to x y t =>
    simp only [detail.path_adapter_load_path_policy, Except.ok.injEq] at h
    subst h
    cases t <;> cases hA : P.absolute_coordinates_only <;> simp [path_line_to, hA]
  | path_line_to_ortho coord horizontal t =>
    simp only [detail.path_adapter_load_path_policy, Except.ok.injEq] at h
    subst h
    cases t <;> cases horizontal <;> cases hA : P.absolute_coordinates_only <;>
      cases hO : P.no_ortho_line_to <;> simp [path_line_to_ortho, path_line_to, hA, hO]
  | path_quadratic_bezier_to x1 y1 x y t =>
    simp only [detail.path_adapter_load_path_policy, Except.ok.injEq] at h
    subst h
    cases t <;> cases hA : P.absolute_coordinates_only <;>
      cases hQ : P.quadratic_bezier_as_cubic <;>
      simp [path_quadratic_bezier_to, path_cubic_bezier_to, hA, hQ]
  | path_quadratic_bezier_to_shorthand x y t =>
    cases t <;> cases hA : P.absolute_coordinates_only <;>
      cases hS : P.no_quadratic_bezier_shorthand <;>
      cases hQ : P.quadratic_bezier_as_cubic <;>
      cases hv : a.last_quadratic_bezier_cp_valid <;>
      simp [detail.path_adapter_load_path_policy, path_quadratic_bezier_to_shorthand,
        record_quadratic_shorthand_cp, read_last_quadratic_bezier_cp_valid,
        has_quadratic_bezier_data, hA, hS, hQ, hv] at h <;>
      subst h <;>
      simp [path_quadratic_bezier_to, path_cubic_bezier_to, hA, hQ]
  | path_cubic_bezier_to x1 y1 x2 y2 x y t =>
    simp only [detail.path_adapter_load_path_policy, Except.ok.injEq] at h
    subst h
    cases t <;> cases hA : P.absolute_coordinates_only <;> simp [path_cubic_bezier_to, hA]
  | path_cubic_bezier_to_shorthand x2 y2 x y t =>
    simp only [detail.path_adapter_load_path_policy, Except.ok.injEq] at h
    subst h
    cases t <;> cases hA : P.absolute_coordinates_only <;>
      cases hC : P.no_cubic_bezier_shorthand <;>
      cases hv : a.last_cubic_bezier_cp_valid <;>
      simp [path_cubic_bezier_to_shorthand, path_cubic_bezier_to, hA, hC, hv]
  | path_elliptical_arc_to rx ry rot large_arc_flag sweep_flag x y t =>
    simp only [detail.path_adapter_load_path_policy, Except.ok.injEq] at h
    subst h
    cases t <;> cases hA : P.absolute_coordinates_only <;>
      cases hR : P.arc_as_cubic_bezier <;>
      simp [path_elliptical_arc_to, path_elliptical_arc_to_absolute, hA, hR,
        foldl_cubic_subpath_start]
  | path_close_subpath =>
    simp only [detail.path_adapter_load_path_policy, Except.ok.injEq] at h
    subst h
    simp [path_close_subpath]
  | path_exit =>
    simp only [detail.path_adapter_load_path_policy, Except.ok.injEq] at h
    subst h
    simp [path_exit]

/-- A command stream without a move-to leaves the subpath start alone. -/
theorem subpath_start_load_path (H : arc_helpers) (P : PathPolicy) (fuel : Nat)
    (cmds : List path_command) (a : path_adapter)
    (hm : ∀ c ∈ cmds, c.is_move_to = false) :
    (detail.load_path H P fuel a cmds).1.subpath_start_x = a.subpath_start_x ∧
    (detail.load_path H P fuel a cmds).1.subpath_start_y = a.subpath_start_y := by
  induction cmds generalizing a with
  | nil => simp [detail.load_path]
  | cons c cs ih =>
    have hc : c.is_move_to = false := hm c (List.mem_cons_self c cs)
    have hcs : ∀ d ∈ cs, d.is_move_to = false := fun d hd => hm d (List.mem_cons_of_mem c hd)
    cases h : detail.path_adapter_load_path_policy H P fuel a c with
    | error e => simp [detail.load_path, h]
    | ok a1 =>
      obtain ⟨hx, hy⟩ := subpath_start_step H P fuel a a1 c hc h
      obtain ⟨ihx, ihy⟩ := ih a1 hcs
      simp [detail.load_path, h, ihx, ihy, hx, hy]

/-- Every command other than a move-to and a quadratic shorthand has a handler that returns;
the quadratic shorthand has one exactly when the policy expands it. -/
theorem handler_returns (H : arc_helpers) (P : PathPolicy) (fuel : Nat)
    (a : path_adapter) (c : path_command) (hm : c.is_move_to = false) :
    (∃ a1, detail.path_adapter_load_path_policy H P fuel a c = .ok a1) ∨
    (∃ x y t, c = .path_quadratic_bezier_to_shorthand x y t ∧
      (P.no_quadratic_bezier_shorthand || P.quadratic_bezier_as_cubic) = false ∧
      detail.path_adapter_load_path_policy H P fuel a c = .error .ill_formed) := by
  cases c with
  | path_move_to x y t => simp [path_command.is_move_to] at hm
  | path_quadratic_bezier_to_shorthand x y t =>
    cases hS : P.no_quadratic_bezier_shorthand <;>
      cases hQ : P.quadratic_bezier_as_cubic <;>
      cases t <;> cases hA : P.absolute_coordinates_only <;>
      cases hv : a.last_quadratic_bezier_cp_valid <;>
      simp [detail.path_adapter_load_path_policy, path_quadratic_bezier_to_shorthand,
        record_quadratic_shorthand_cp, read_last_quadratic_bezier_cp_valid,
        has_quadratic_bezier_data, hA, hS, hQ, hv]
  | path_line_to x y t => exact Or.inl ⟨_, rfl⟩
  | path_line_to_ortho coord horizontal t => exact Or.inl ⟨_, rfl⟩
  | path_quadratic_bezier_to x1 y1 x y t => exact Or.inl ⟨_, rfl⟩
  | path_cubic_bezier_to x1 y1 x2 y2 x y t => exact Or.inl ⟨_, rfl⟩
  | path_cubic_bezier_to_shorthand x2 y2 x y t => exact Or.inl ⟨_, rfl⟩
  | path_elliptical_arc_to rx ry rot large_arc_flag sweep_flag x y t => exact Or.inl ⟨_, rfl⟩
  | path_close_subpath => exact Or.inl ⟨_, rfl⟩
  | path_exit => exact Or.inl ⟨_, rfl⟩

end lemmas

/-! ## Claims -/

section claims

open path_adapter detail

/-- C1 (the code breaks it). With `absolute_coordinates_only` set and cubic shorthand supported,
a relative cubic shorthand reaches the overload of lines 601-614, which forwards it with the
relative tag: from a fresh adapter the command `(0,10,10,10)` relative is the one call the
output context receives, tag unchanged. -/
theorem absolute_only_forwards_relative_cubic_shorthand (H : arc_helpers) (fuel : Nat) :
    policy_absolute.static_assert_ok = true ∧
    policy_absolute.absolute_coordinates_only = true ∧
    ∃ a, path_adapter_load_path_policy H policy_absolute fuel fresh
          (.path_cubic_bezier_to_shorthand 0 10 10 10 .relative_coordinate) = .ok a ∧
      a.output_context = [.path_cubic_bezier_to_shorthand 0 10 10 10 .relative_coordinate] ∧
      a.output_context.map path_command.tag_of = [some .relative_coordinate] := by
  refine ⟨rfl, rfl, _, rfl, ?_, ?_⟩ <;>
    simp [path_cubic_bezier_to_shorthand, policy_absolute, fresh, initial, forward,
      set_cubic_cp, set_cubic_cp_base, invalidate_last_quadratic_bezier_cp,
      has_quadratic_bezier_data, path_command.tag_of]

/-- C2 (the code breaks it). With `absolute_coordinates_only` off, a relative move-to never
returns and makes no call on the output context: for every recursion budget the handler runs out
of it, and the stream `[move-to (1,1) relative]` leaves the output context empty. -/
theorem relative_move_to_never_returns (H : arc_helpers) (fuel : Nat) :
    policy_relative.static_assert_ok = true ∧
    path_adapter_load_path_policy H policy_relative fuel fresh
        (.path_move_to 1 1 .relative_coordinate) = .error .out_of_fuel ∧
    load_path H policy_relative fuel fresh [.path_move_to 1 1 .relative_coordinate]
      = (fresh, some .out_of_fuel) := by
  have h : path_adapter_load_path_policy H policy_relative fuel fresh
      (.path_move_to 1 1 .relative_coordinate) = .error .out_of_fuel := by
    simp [path_adapter_load_path_policy, path_move_to, policy_relative,
      path_move_to_relative_out_of_fuel]
  exact ⟨rfl, h, by simp [load_path, h]⟩

/-- C3 (the code breaks it). With `absolute_coordinates_only` set and cubic shorthand supported,
at the pen position `(1,2)` the relative cubic shorthand `(0,10,10,10)` and its conversion by
hand `(1,12,11,12)` absolute give different output streams: the first is forwarded as it came,
relative, the second is forwarded absolute. -/
theorem relative_cubic_shorthand_differs_from_absolute (H : arc_helpers) (fuel : Nat) :
    (load_path H policy_absolute fuel fresh
        [.path_move_to 1 2 .absolute_coordinate,
         .path_cubic_bezier_to_shorthand 0 10 10 10 .relative_coordinate]).1.output_context
      = [.path_move_to 1 2 .absolute_coordinate,
         .path_cubic_bezier_to_shorthand 0 10 10 10 .relative_coordinate] ∧
    (load_path H policy_absolute fuel fresh
        [.path_move_to 1 2 .absolute_coordinate,
         .path_cubic_bezier_to_shorthand 1 12 11 12 .absolute_coordinate]).1.output_context
      = [.path_move_to 1 2 .absolute_coordinate,
         .path_cubic_bezier_to_shorthand 1 12 11 12 .absolute_coordinate] ∧
    (load_path H policy_absolute fuel fresh
        [.path_move_to 1 2 .absolute_coordinate,
         .path_cubic_bezier_to_shorthand 0 10 10 10 .relative_coordinate]).1.output_context
      ≠ (load_path H policy_absolute fuel fresh
        [.path_move_to 1 2 .absolute_coordinate,
         .path_cubic_bezier_to_shorthand 1 12 11 12 .absolute_coordinate]).1.output_context := by
  refine ⟨?_, ?_, ?_⟩ <;>
    simp [load_path, path_adapter_load_path_policy, path_move_to, path_move_to_absolute,
      path_cubic_bezier_to_shorthand, policy_absolute, fresh, initial, forward,
      non_curve_command, set_cubic_cp, set_cubic_cp_base, invalidate_last_cubic_bezier_cp,
      invalidate_last_quadratic_bezier_cp, has_quadratic_bezier_data]

/-- C4 (the code breaks it). A relative move-to is a form a policy without
`absolute_coordinates_only` allows, yet the adapter does not reproduce it: after a first
absolute move-to, the stream stops at `move-to (1,1) relative` with the budget exhausted,
whatever the budget, and the output context holds the first move-to only. -/
theorem canonical_relative_move_to_not_reproduced (H : arc_helpers) (fuel : Nat) :
    policy_relative.absolute_coordinates_only = false ∧
    load_path H policy_relative fuel fresh
        [.path_move_to 5 5 .absolute_coordinate, .path_move_to 1 1 .relative_coordinate]
      = (path_move_to_absolute policy_relative fresh 5 5, some .out_of_fuel) ∧
    (path_move_to_absolute policy_relative fresh 5 5).output_context
      = [.path_move_to 5 5 .absolute_coordinate] := by
  refine ⟨rfl, ?_, ?_⟩
  · simp [load_path, path_adapter_load_path_policy, path_move_to, policy_relative,
      path_move_to_relative_out_of_fuel]
  · simp [path_move_to_absolute, fresh, initial, forward, non_curve_command,
      invalidate_last_cubic_bezier_cp, invalidate_last_quadratic_bezier_cp,
      has_quadratic_bezier_data, policy_relative]

/-- C5. Under `no_cubic_bezier_shorthand`, a cubic shorthand that follows an explicit cubic is
emitted as one explicit cubic whose first control point is the reflection of the second control
point `c2` of that cubic (taken in absolute space) through the current point: `2·current − c2`
when the emission is absolute (absolute shorthand, or relative shorthand under
`absolute_coordinates_only`), and the offset `current − c2` when the emission is relative. -/
theorem cubic_shorthand_after_cubic_reflects (H : arc_helpers) (P : PathPolicy) (fuel : Nat)
    (a : path_adapter) (x1 y1 x2 y2 x y : coordinate_type) (t : tag)
    (sx2 sy2 sx sy : coordinate_type) (t2 : tag)
    (h : P.no_cubic_bezier_shorthand = true) :
    ∃ a1 a2,
      path_adapter_load_path_policy H P fuel a (.path_cubic_bezier_to x1 y1 x2 y2 x y t)
        = .ok a1 ∧
      a1.current_x = a.absolute_x t x ∧ a1.current_y = a.absolute_y t y ∧
      path_adapter_load_path_policy H P fuel a1 (.path_cubic_bezier_to_shorthand sx2 sy2 sx sy t2)
        = .ok a2 ∧
      a2.output_context = a1.output_context ++
        [match t2 with
         | .absolute_coordinate =>
           .path_cubic_bezier_to
             (2 * a1.current_x - a.absolute_x t x2) (2 * a1.current_y - a.absolute_y t y2)
             sx2 sy2 sx sy .absolute_coordinate
         | .relative_coordinate =>
           if P.absolute_coordinates_only then
             .path_cubic_bezier_to
               (2 * a1.current_x - a.absolute_x t x2) (2 * a1.current_y - a.absolute_y t y2)
               (sx2 + a1.current_x) (sy2 + a1.current_y) (sx + a1.current_x) (sy + a1.current_y)
               .absolute_coordinate
           else
             .path_cubic_bezier_to
               (a1.current_x - a.absolute_x t x2) (a1.current_y - a.absolute_y t y2)
               sx2 sy2 sx sy .relative_coordinate] := by
  refine ⟨_, _, rfl, ?_, ?_, rfl, ?_⟩
  · cases t <;> cases hA : P.absolute_coordinates_only <;>
      cases hQ : has_quadratic_bezier_data P <;>
      simp [path_cubic_bezier_to, absolute_x, forward, set_cubic_cp, set_cubic_cp_base,
        invalidate_last_quadratic_bezier_cp, h, hA, hQ, add_comm]
  · cases t <;> cases hA : P.absolute_coordinates_only <;>
      cases hQ : has_quadratic_bezier_data P <;>
      simp [path_cubic_bezier_to, absolute_y, forward, set_cubic_cp, set_cubic_cp_base,
        invalidate_last_quadratic_bezier_cp, h, hA, hQ, add_comm]
  · cases t <;> cases t2 <;> cases hA : P.absolute_coordinates_only <;>
      cases hQ : has_quadratic_bezier_data P <;>
      simp [path_cubic_bezier_to_shorthand, path_cubic_bezier_to, absolute_x, absolute_y,
        forward, set_cubic_cp, set_cubic_cp_base, invalidate_last_quadratic_bezier_cp, h, hA, hQ]
        <;> ring_nf <;> simp

/-- C5, at a concrete input: after the explicit cubic `(1,1) (2,1) (3,0)` the absolute shorthand
`(4,1) (5,0)` is emitted with first control point `2·(3,0) − (2,1)`. -/
theorem cubic_shorthand_after_cubic_reflects_witness :
    policy_arc_as_cubic.no_cubic_bezier_shorthand = true ∧
    ∃ a1 a2,
      path_adapter_load_path_policy helpers_no_segment policy_arc_as_cubic 0 fresh
        (.path_cubic_bezier_to 1 1 2 1 3 0 .absolute_coordinate) = .ok a1 ∧
      a1.current_x = fresh.absolute_x .absolute_coordinate 3 ∧
      a1.current_y = fresh.absolute_y .absolute_coordinate 0 ∧
      path_adapter_load_path_policy helpers_no_segment policy_arc_as_cubic 0 a1
        (.path_cubic_bezier_to_shorthand 4 1 5 0 .absolute_coordinate) = .ok a2 ∧
      a2.output_context = a1.output_context ++
        [.path_cubic_bezier_to
           (2 * a1.current_x - fresh.absolute_x .absolute_coordinate 2)
           (2 * a1.current_y - fresh.absolute_y .absolute_coordinate 1)
           4 1 5 0 .absolute_coordinate] :=
  ⟨rfl, cubic_shorthand_after_cubic_reflects helpers_no_segment policy_arc_as_cubic 0 fresh
    1 1 2 1 3 0 .absolute_coordinate 4 1 5 0 .absolute_coordinate rfl⟩

/-- C8. Under `quadratic_bezier_as_cubic`, an explicit quadratic with control point `q` and
endpoint `e` is emitted as exactly one explicit cubic. Absolute input, start `s` the current
point: `c1 = s + 2/3·(q − s)`, `c2 = e + 2/3·(q − e)`, endpoint `e`, absolute. Relative input:
the same with `s = (0,0)` and all points offsets, emitted relative; under
`absolute_coordinates_only` those three offsets are each added to the current point and the
cubic is emitted absolute. -/
theorem quadratic_as_cubic_control_points (H : arc_helpers) (P : PathPolicy) (fuel : Nat)
    (a : path_adapter) (qx qy ex ey : coordinate_type)
    (h : P.quadratic_bezier_as_cubic = true) :
    (∃ a1,
      path_adapter_load_path_policy H P fuel a
        (.path_quadratic_bezier_to qx qy ex ey .absolute_coordinate) = .ok a1 ∧
      a1.output_context = a.output_context ++
        [.path_cubic_bezier_to
           (a.current_x + 2 / 3 * (qx - a.current_x)) (a.current_y + 2 / 3 * (qy - a.current_y))
           (ex + 2 / 3 * (qx - ex)) (ey + 2 / 3 * (qy - ey))
           ex ey .absolute_coordinate]) ∧
    (∃ a1,
      path_adapter_load_path_policy H P fuel a
        (.path_quadratic_bezier_to qx qy ex ey .relative_coordinate) = .ok a1 ∧
      a1.output_context = a.output_context ++
        [if P.absolute_coordinates_only then
           .path_cubic_bezier_to
             (a.current_x + (0 + 2 / 3 * (qx - 0))) (a.current_y + (0 + 2 / 3 * (qy - 0)))
             (a.current_x + (ex + 2 / 3 * (qx - ex))) (a.current_y + (ey + 2 / 3 * (qy - ey)))
             (a.current_x + ex) (a.current_y + ey) .absolute_coordinate
         else
           .path_cubic_bezier_to
             (0 + 2 / 3 * (qx - 0)) (0 + 2 / 3 * (qy - 0))
             (ex + 2 / 3 * (qx - ex)) (ey + 2 / 3 * (qy - ey))
             ex ey .relative_coordinate]) := by
  refine ⟨⟨_, rfl, ?_⟩, ⟨_, rfl, ?_⟩⟩
  · cases hC : P.no_cubic_bezier_shorthand <;> cases hQ : has_quadratic_bezier_data P <;>
      simp [path_quadratic_bezier_to, path_cubic_bezier_to, forward, set_cubic_cp,
        set_cubic_cp_base, invalidate_last_quadratic_bezier_cp, h, hC, hQ] <;>
      refine ⟨?_, ?_, ?_, ?_⟩ <;> ring
  · cases hA : P.absolute_coordinates_only <;>
      cases hC : P.no_cubic_bezier_shorthand <;> cases hQ : has_quadratic_bezier_data P <;>
      simp [path_quadratic_bezier_to, path_cubic_bezier_to, forward, set_cubic_cp,
        set_cubic_cp_base, invalidate_last_quadratic_bezier_cp, h, hA, hC, hQ] <;>
      (try refine ⟨?_, ?_, ?_, ?_, ?_, ?_⟩) <;> (try refine ⟨?_, ?_⟩) <;> ring

/-- C8, at a concrete input: from the pen position `(0,0)` the absolute quadratic with control
point `(3,3)` and endpoint `(6,0)` and its relative twin. -/
theorem quadratic_as_cubic_control_points_witness :
    policy_quadratic_as_cubic.quadratic_bezier_as_cubic = true ∧
    ((∃ a1,
      path_adapter_load_path_policy helpers_no_segment policy_quadratic_as_cubic 0 fresh
        (.path_quadratic_bezier_to 3 3 6 0 .absolute_coordinate) = .ok a1 ∧
      a1.output_context = fresh.output_context ++
        [.path_cubic_bezier_to
           (fresh.current_x + 2 / 3 * (3 - fresh.current_x))
           (fresh.current_y + 2 / 3 * (3 - fresh.current_y))
           (6 + 2 / 3 * (3 - 6)) (0 + 2 / 3 * (3 - 0))
           6 0 .absolute_coordinate]) ∧
    (∃ a1,
      path_adapter_load_path_policy helpers_no_segment policy_quadratic_as_cubic 0 fresh
        (.path_quadratic_bezier_to 3 3 6 0 .relative_coordinate) = .ok a1 ∧
      a1.output_context = fresh.output_context ++
        [if policy_quadratic_as_cubic.absolute_coordinates_only then
           .path_cubic_bezier_to
             (fresh.current_x + (0 + 2 / 3 * (3 - 0))) (fresh.current_y + (0 + 2 / 3 * (3 - 0)))
             (fresh.current_x + (6 + 2 / 3 * (3 - 6))) (fresh.current_y + (0 + 2 / 3 * (3 - 0)))
             (fresh.current_x + 6) (fresh.current_y + 0) .absolute_coordinate
         else
           .path_cubic_bezier_to
             (0 + 2 / 3 * (3 - 0)) (0 + 2 / 3 * (3 - 0))
             (6 + 2 / 3 * (3 - 6)) (0 + 2 / 3 * (3 - 0))
             6 0 .relative_coordinate])) :=
  ⟨rfl, quadratic_as_cubic_control_points helpers_no_segment policy_quadratic_as_cubic 0 fresh
    3 3 6 0 rfl⟩

/-- C6 (the code breaks it). Under `quadratic_bezier_as_cubic` the quadratic `(3,3) (6,0)` is
emitted as the cubic `(2,2) (4,2) (6,0)` through the explicit cubic handler, which records
`(4,2)` as last cubic control point; the cubic shorthand `(9,3) (12,0)` that follows is emitted
with first control point `(8,−2) = 2·(6,0) − (4,2)`, not the current point `(6,0)`. Under
`arc_as_cubic_bezier` the same happens after an arc: the shorthand reflects the second control
point `(2,1)` of the last arc segment and starts at `(4,−1)`, not at `(3,0)`. -/
theorem cubic_shorthand_after_non_cubic_reflects (fuel : Nat) :
    policy_quadratic_as_cubic.static_assert_ok = true ∧
    policy_quadratic_as_cubic.no_cubic_bezier_shorthand = true ∧
    (load_path helpers_no_segment policy_quadratic_as_cubic fuel fresh
        [.path_quadratic_bezier_to 3 3 6 0 .absolute_coordinate,
         .path_cubic_bezier_to_shorthand 9 3 12 0 .absolute_coordinate]).1.output_context
      = [.path_cubic_bezier_to 2 2 4 2 6 0 .absolute_coordinate,
         .path_cubic_bezier_to 8 (-2) 9 3 12 0 .absolute_coordinate] ∧
    policy_arc_as_cubic.no_cubic_bezier_shorthand = true ∧
    (load_path helpers_one_segment policy_arc_as_cubic fuel fresh
        [.path_elliptical_arc_to 5 5 0 false true 3 0 .absolute_coordinate,
         .path_cubic_bezier_to_shorthand 9 3 12 0 .absolute_coordinate]).1.output_context
      = [.path_cubic_bezier_to 1 1 2 1 3 0 .absolute_coordinate,
         .path_cubic_bezier_to 4 (-1) 9 3 12 0 .absolute_coordinate] := by
  refine ⟨rfl, rfl, ?_, rfl, ?_⟩
  · simp [load_path, path_adapter_load_path_policy, path_quadratic_bezier_to,
      path_cubic_bezier_to_shorthand, path_cubic_bezier_to, policy_quadratic_as_cubic, fresh,
      initial, forward, set_cubic_cp, set_cubic_cp_base, invalidate_last_quadratic_bezier_cp,
      has_quadratic_bezier_data]
    norm_num
  · simp [load_path, path_adapter_load_path_policy, path_elliptical_arc_to,
      path_elliptical_arc_to_absolute, arc_segments, helpers_one_segment,
      path_cubic_bezier_to_shorthand, path_cubic_bezier_to, policy_arc_as_cubic, fresh,
      initial, forward, set_cubic_cp, set_cubic_cp_base, invalidate_last_quadratic_bezier_cp,
      has_quadratic_bezier_data]
    norm_num

/-- C7 (the code breaks it). Under `quadratic_bezier_as_cubic` the explicit quadratic is handed to
the cubic handler and its control point is never recorded, so the quadratic shorthand that
follows uses the current point as control point: after the quadratic `(3,3) (6,0)`, the shorthand
to `(12,0)` is emitted as the cubic `(6,0) (8,0) (12,0)`, whereas the explicit quadratic with the
reflected control point `(9,−3) = 2·(6,0) − (3,3)` is emitted as `(8,−2) (10,−2) (12,0)`. -/
theorem quadratic_shorthand_under_quadratic_as_cubic_not_reflected (fuel : Nat) :
    policy_quadratic_as_cubic.static_assert_ok = true ∧
    (load_path helpers_no_segment policy_quadratic_as_cubic fuel fresh
        [.path_quadratic_bezier_to 3 3 6 0 .absolute_coordinate,
         .path_quadratic_bezier_to_shorthand 12 0 .absolute_coordinate]).1.output_context
      = [.path_cubic_bezier_to 2 2 4 2 6 0 .absolute_coordinate,
         .path_cubic_bezier_to 6 0 8 0 12 0 .absolute_coordinate] ∧
    (load_path helpers_no_segment policy_quadratic_as_cubic fuel fresh
        [.path_quadratic_bezier_to 3 3 6 0 .absolute_coordinate,
         .path_quadratic_bezier_to 9 (-3) 12 0 .absolute_coordinate]).1.output_context
      = [.path_cubic_bezier_to 2 2 4 2 6 0 .absolute_coordinate,
         .path_cubic_bezier_to 8 (-2) 10 (-2) 12 0 .absolute_coordinate] := by
  refine ⟨rfl, ?_, ?_⟩ <;>
  · simp [load_path, path_adapter_load_path_policy, path_quadratic_bezier_to_shorthand,
      path_quadratic_bezier_to, path_cubic_bezier_to, policy_quadratic_as_cubic, fresh,
      initial, forward, set_cubic_cp, set_cubic_cp_base, invalidate_last_quadratic_bezier_cp,
      has_quadratic_bezier_data]
    norm_num

/-- C9 (fails as stated). With `arc_as_cubic_bezier`, the arc with `rx = 0` to `(10,0)` does not
produce the one line-to to `(10,0)`: with helpers that yield one segment the output context
receives that segment as a cubic, and with helpers that yield none it receives nothing. -/
theorem degenerate_arc_emits_no_line_to :
    policy_arc_as_cubic.arc_as_cubic_bezier = true ∧
    (load_path helpers_one_segment policy_arc_as_cubic 0 fresh
        [.path_elliptical_arc_to 0 5 0 false true 10 0 .absolute_coordinate]).1.output_context
      = [.path_cubic_bezier_to 1 1 2 1 3 0 .absolute_coordinate] ∧
    (load_path helpers_no_segment policy_arc_as_cubic 0 fresh
        [.path_elliptical_arc_to 0 5 0 false true 10 0 .absolute_coordinate]).1.output_context
      = [] ∧
    (load_path helpers_one_segment policy_arc_as_cubic 0 fresh
        [.path_elliptical_arc_to 0 5 0 false true 10 0 .absolute_coordinate]).1.output_context
      ≠ [.path_line_to 10 0 .absolute_coordinate] ∧
    (load_path helpers_no_segment policy_arc_as_cubic 0 fresh
        [.path_elliptical_arc_to 0 5 0 false true 10 0 .absolute_coordinate]).1.output_context
      ≠ [.path_line_to 10 0 .absolute_coordinate] := by
  refine ⟨rfl, ?_, ?_, ?_, ?_⟩ <;>
    simp [load_path, path_adapter_load_path_policy, path_elliptical_arc_to,
      path_elliptical_arc_to_absolute, arc_segments, helpers_one_segment, helpers_no_segment,
      path_cubic_bezier_to, policy_arc_as_cubic, fresh, initial, forward, set_cubic_cp,
      set_cubic_cp_base, invalidate_last_quadratic_bezier_cp, has_quadratic_bezier_data]

/-- C9 (amended). With `arc_as_cubic_bezier`, an arc with `rx = 0`, with `ry = 0` or with its
endpoint at the current point is handled like every other arc: the adapter hands it to the arc
helpers and forwards exactly one absolute explicit cubic per segment they yield, in order, and
so never a line-to. -/
theorem degenerate_arc_emits_helper_segments (H : arc_helpers) (P : PathPolicy) (fuel : Nat)
    (a : path_adapter) (rx ry x_axis_rotation : coordinate_type)
    (large_arc_flag sweep_flag : Bool) (x y : coordinate_type) (t : tag)
    (h : P.arc_as_cubic_bezier = true)
    (_hd : rx = 0 ∨ ry = 0 ∨ (a.absolute_x t x = a.current_x ∧ a.absolute_y t y = a.current_y)) :
    ∃ a1,
      path_adapter_load_path_policy H P fuel a
        (.path_elliptical_arc_to rx ry x_axis_rotation large_arc_flag sweep_flag x y t)
        = .ok a1 ∧
      a1.output_context = a.output_context ++
        (arc_segments H a rx ry x_axis_rotation large_arc_flag sweep_flag
            (a.absolute_x t x) (a.absolute_y t y)).map
          (fun it =>
            path_command.path_cubic_bezier_to it.p1x it.p1y it.p2x it.p2y it.p3x it.p3y
              .absolute_coordinate) ∧
      ∀ lx ly lt, path_command.path_line_to lx ly lt ∉
        (arc_segments H a rx ry x_axis_rotation large_arc_flag sweep_flag
            (a.absolute_x t x) (a.absolute_y t y)).map
          (fun it =>
            path_command.path_cubic_bezier_to it.p1x it.p1y it.p2x it.p2y it.p3x it.p3y
              .absolute_coordinate) := by
  refine ⟨_, rfl, ?_, ?_⟩
  · cases t <;>
      simp [path_elliptical_arc_to, path_elliptical_arc_to_absolute, h,
        foldl_cubic_output_context, absolute_x, absolute_y, add_comm]
  · intro lx ly lt hmem
    simp at hmem

/-- C9 (amended), at a concrete input: the arc with `rx = 0` to `(10,0)` from a fresh adapter. -/
theorem degenerate_arc_emits_helper_segments_witness :
    policy_arc_as_cubic.arc_as_cubic_bezier = true ∧
    ((0 : coordinate_type) = 0 ∨ (5 : coordinate_type) = 0 ∨
      (fresh.absolute_x .absolute_coordinate 10 = fresh.current_x ∧
        fresh.absolute_y .absolute_coordinate 0 = fresh.current_y)) ∧
    ∃ a1,
      path_adapter_load_path_policy helpers_one_segment policy_arc_as_cubic 0 fresh
        (.path_elliptical_arc_to 0 5 0 false true 10 0 .absolute_coordinate) = .ok a1 ∧
      a1.output_context = fresh.output_context ++
        (arc_segments helpers_one_segment fresh 0 5 0 false true
            (fresh.absolute_x .absolute_coordinate 10)
            (fresh.absolute_y .absolute_coordinate 0)).map
          (fun it =>
            path_command.path_cubic_bezier_to it.p1x it.p1y it.p2x it.p2y it.p3x it.p3y
              .absolute_coordinate) ∧
      ∀ lx ly lt, path_command.path_line_to lx ly lt ∉
        (arc_segments helpers_one_segment fresh 0 5 0 false true
            (fresh.absolute_x .absolute_coordinate 10)
            (fresh.absolute_y .absolute_coordinate 0)).map
          (fun it =>
            path_command.path_cubic_bezier_to it.p1x it.p1y it.p2x it.p2y it.p3x it.p3y
              .absolute_coordinate) :=
  ⟨rfl, Or.inl rfl,
    degenerate_arc_emits_helper_segments helpers_one_segment policy_arc_as_cubic 0 fresh
      0 5 0 false true 10 0 .absolute_coordinate rfl (Or.inl rfl)⟩

/-- C10 (the code breaks it). `need_path_adapter` does not consult `arc_as_cubic_bezier`, so
for the valid policy that sets this flag alone a path is loaded into the output context
directly: the arc `(5,5,0,false,true) (3,0)` reaches the output context as an arc, a shape the
policy refuses. Under the policy with every flag set the sample stream is forwarded as a
move-to, a line-to, three cubics and a close. Whenever the adapter is in the path (`need_path_adapter` holds), or
`arc_as_cubic_bezier` is off, the conformance does hold for every command stream: no orthogonal
line-to under `no_ortho_line_to`, no cubic shorthand under `no_cubic_bezier_shorthand`, no
quadratic shorthand under `no_quadratic_bezier_shorthand`, no quadratic of either form under
`quadratic_bezier_as_cubic`, no elliptical arc under `arc_as_cubic_bezier`. -/
theorem arc_reaches_output_context_when_bypassed :
    policy_arc_only.static_assert_ok = true ∧
    policy_arc_only.arc_as_cubic_bezier = true ∧
    need_path_adapter policy_arc_only = false ∧
    path_adapter_if_needed policy_arc_only = .original_context ∧
    (∀ (H : arc_helpers) (fuel : Nat),
      load_path_if_needed H policy_arc_only fuel [] 0 0 0 0
          [.path_elliptical_arc_to 5 5 0 false true 3 0 .absolute_coordinate]
        = some [.path_elliptical_arc_to 5 5 0 false true 3 0 .absolute_coordinate]) ∧
    policy_arc_only.accepts_shape
      (.path_elliptical_arc_to 5 5 0 false true 3 0 .absolute_coordinate) = false ∧
    load_path_if_needed helpers_one_segment policy_all 1 [] 0 0 0 0 sample_stream
      = some [.path_move_to 1 2 .absolute_coordinate,
         .path_line_to 6 2 .absolute_coordinate,
         .path_cubic_bezier_to 6 2 (19 / 3) (7 / 3) 7 3 .absolute_coordinate,
         .path_cubic_bezier_to (23 / 3) (11 / 3) 8 4 9 3 .absolute_coordinate,
         .path_cubic_bezier_to 1 1 2 1 3 0 .absolute_coordinate,
         .path_close_subpath] ∧
    (∀ (H : arc_helpers) (P : PathPolicy) (fuel : Nat)
        (cubic_x cubic_y quadratic_x quadratic_y : coordinate_type)
        (cmds out : List path_command),
      (need_path_adapter P = true ∨ P.arc_as_cubic_bezier = false) →
      load_path_if_needed H P fuel [] cubic_x cubic_y quadratic_x quadratic_y cmds = some out →
      (P.no_ortho_line_to = true → ∀ coord horizontal t,
        path_command.path_line_to_ortho coord horizontal t ∉ out) ∧
      (P.no_cubic_bezier_shorthand = true → ∀ x2 y2 x y t,
        path_command.path_cubic_bezier_to_shorthand x2 y2 x y t ∉ out) ∧
      (P.no_quadratic_bezier_shorthand = true → ∀ x y t,
        path_command.path_quadratic_bezier_to_shorthand x y t ∉ out) ∧
      (P.quadratic_bezier_as_cubic = true →
        (∀ x1 y1 x y t, path_command.path_quadratic_bezier_to x1 y1 x y t ∉ out) ∧
        (∀ x y t, path_command.path_quadratic_bezier_to_shorthand x y t ∉ out)) ∧
      (P.arc_as_cubic_bezier = true → ∀ rx ry rot large_arc_flag sweep_flag x y t,
        path_command.path_elliptical_arc_to rx ry rot large_arc_flag sweep_flag x y t
          ∉ out)) := by
  refine ⟨rfl, rfl, rfl, rfl, ?_, rfl, ?_, ?_⟩
  · intro H fuel
    simp [load_path_if_needed, path_adapter_if_needed, need_path_adapter, policy_arc_only]
  · simp [load_path_if_needed, path_adapter_if_needed, need_path_adapter, construct,
      PathPolicy.static_assert_ok, load_path, sample_stream, path_adapter_load_path_policy,
      path_move_to, path_move_to_absolute, path_line_to_ortho, path_line_to,
      path_quadratic_bezier_to_shorthand, path_quadratic_bezier_to,
      path_cubic_bezier_to_shorthand, path_cubic_bezier_to, path_elliptical_arc_to,
      path_elliptical_arc_to_absolute, arc_segments, helpers_one_segment, path_close_subpath,
      policy_all, initial, forward, non_curve_command, set_cubic_cp, set_cubic_cp_base,
      invalidate_last_cubic_bezier_cp, invalidate_last_quadratic_bezier_cp,
      has_quadratic_bezier_data]
    norm_num
  · intro H P fuel cubic_x cubic_y quadratic_x quadratic_y cmds out hP hout
    cases hN : need_path_adapter P
    · -- the output context is used directly; none of the five flags is set
      have hR : P.arc_as_cubic_bezier = false := by
        rcases hP with hP | hP
        · rw [hN] at hP
          cases hP
        · exact hP
      have hflags := hN
      simp only [need_path_adapter, Bool.or_eq_false_iff] at hflags
      obtain ⟨⟨⟨⟨-, hO⟩, hS⟩, hC⟩, hQ⟩ := hflags
      refine ⟨?_, ?_, ?_, ?_, ?_⟩
      · intro hf
        rw [hO] at hf
        cases hf
      · intro hf
        rw [hC] at hf
        cases hf
      · intro hf
        rw [hS] at hf
        cases hf
      · intro hf
        rw [hQ] at hf
        cases hf
      · intro hf
        rw [hR] at hf
        cases hf
    · -- the adapter is in the path
      simp only [load_path_if_needed, path_adapter_if_needed, hN, if_true] at hout
      cases hK : construct P [] cubic_x cubic_y quadratic_x quadratic_y with
      | none => simp [hK] at hout
      | some adapter =>
        simp only [hK, Option.some.injEq] at hout
        have hctx : adapter.output_context = [] := by
          simp only [construct] at hK
          split_ifs at hK
          cases hK
          rfl
        have key := accepts_shape_load_path H P fuel cmds adapter (by simp [hctx])
        rw [hout] at key
        refine ⟨?_, ?_, ?_, ?_, ?_⟩
        · intro hf coord horizontal t hmem
          simpa [PathPolicy.accepts_shape, hf] using key _ hmem
        · intro hf x2 y2 x y t hmem
          simpa [PathPolicy.accepts_shape, hf] using key _ hmem
        · intro hf x y t hmem
          simpa [PathPolicy.accepts_shape, hf] using key _ hmem
        · intro hf
          refine ⟨?_, ?_⟩
          · intro x1 y1 x y t hmem
            simpa [PathPolicy.accepts_shape, hf] using key _ hmem
          · intro x y t hmem
            simpa [PathPolicy.accepts_shape, hf] using key _ hmem
        · intro hf rx ry rot large_arc_flag sweep_flag x y t hmem
          simpa [PathPolicy.accepts_shape, hf] using key _ hmem

/-- C12 (the code breaks it). `need_path_adapter` does not consult `arc_as_cubic_bezier`: for the
policy that sets this flag alone it is false, and `path_adapter_if_needed` selects the output
context itself, so the adapter is bypassed although one of the six flags is set. The direction
from "all six flags off" to "bypassed" does hold. -/
theorem need_path_adapter_ignores_arc_as_cubic :
    policy_arc_only.static_assert_ok = true ∧
    policy_arc_only.arc_as_cubic_bezier = true ∧
    need_path_adapter policy_arc_only = false ∧
    path_adapter_if_needed policy_arc_only = .original_context ∧
    ¬ (∀ P : PathPolicy, need_path_adapter P = false ↔
        (P.absolute_coordinates_only = false ∧ P.no_ortho_line_to = false ∧
         P.no_quadratic_bezier_shorthand = false ∧ P.no_cubic_bezier_shorthand = false ∧
         P.quadratic_bezier_as_cubic = false ∧ P.arc_as_cubic_bezier = false)) := by
  refine ⟨rfl, rfl, rfl, rfl, ?_⟩
  intro h
  have h1 := (h policy_arc_only).1 rfl
  simp [policy_arc_only] at h1

/-- C13. Construction fails exactly when `quadratic_bezier_as_cubic` is set and
`no_cubic_bezier_shorthand` is not; for every other policy it yields an adapter on the given
output context with the pen and the subpath start at `(0,0)` and both control memories
invalid. -/
theorem construct_fails_iff_static_assert (P : PathPolicy) (original_context : List path_command)
    (cubic_x cubic_y quadratic_x quadratic_y : coordinate_type) :
    (construct P original_context cubic_x cubic_y quadratic_x quadratic_y = none ↔
      (P.quadratic_bezier_as_cubic = true ∧ P.no_cubic_bezier_shorthand = false)) ∧
    (¬ (P.quadratic_bezier_as_cubic = true ∧ P.no_cubic_bezier_shorthand = false) →
      ∃ a, construct P original_context cubic_x cubic_y quadratic_x quadratic_y = some a ∧
        a.output_context = original_context ∧
        a.current_x = 0 ∧ a.current_y = 0 ∧
        a.subpath_start_x = 0 ∧ a.subpath_start_y = 0 ∧
        a.last_cubic_bezier_cp_valid = false ∧ a.last_quadratic_bezier_cp_valid = false ∧
        a.last_cubic_control P = none ∧ a.last_quadratic_control P = none) := by
  cases hQ : P.quadratic_bezier_as_cubic <;> cases hC : P.no_cubic_bezier_shorthand <;>
    simp [construct, PathPolicy.static_assert_ok, initial, last_cubic_control,
      last_quadratic_control, hQ, hC]

/-- C13, at concrete inputs: the policy with every flag set constructs, the policy with
`quadratic_bezier_as_cubic` alone does not. -/
theorem construct_fails_iff_static_assert_witness :
    (∃ a, construct policy_all [] 0 0 0 0 = some a ∧
        a.output_context = [] ∧
        a.current_x = 0 ∧ a.current_y = 0 ∧
        a.subpath_start_x = 0 ∧ a.subpath_start_y = 0 ∧
        a.last_cubic_bezier_cp_valid = false ∧ a.last_quadratic_bezier_cp_valid = false ∧
        a.last_cubic_control policy_all = none ∧ a.last_quadratic_control policy_all = none) ∧
    construct
      { absolute_coordinates_only := false, no_ortho_line_to := false,
        no_quadratic_bezier_shorthand := false, no_cubic_bezier_shorthand := false,
        quadratic_bezier_as_cubic := true, arc_as_cubic_bezier := false } [] 0 0 0 0 = none :=
  ⟨(construct_fails_iff_static_assert policy_all [] 0 0 0 0).2 (by decide),
   (construct_fails_iff_static_assert _ [] 0 0 0 0).1.2 ⟨rfl, rfl⟩⟩

/-- C14. A move-to given in absolute form to `p`, or in relative form by `d` under
`absolute_coordinates_only` (then `p = current_point + d`), makes exactly one call on the output
context, the absolute move-to to `p`; afterwards the pen and the subpath start are at `p` and
both control memories are invalid. -/
theorem move_to_absolute_form (H : arc_helpers) (P : PathPolicy) (fuel : Nat)
    (a : path_adapter) (x y : coordinate_type) (t : tag)
    (h : t = .absolute_coordinate ∨ P.absolute_coordinates_only = true) :
    ∃ a1,
      path_adapter_load_path_policy H P fuel a (.path_move_to x y t) = .ok a1 ∧
      a1.output_context = a.output_context ++
        [.path_move_to (a.absolute_x t x) (a.absolute_y t y) .absolute_coordinate] ∧
      a1.current_x = a.absolute_x t x ∧ a1.current_y = a.absolute_y t y ∧
      a1.subpath_start_x = a.absolute_x t x ∧ a1.subpath_start_y = a.absolute_y t y ∧
      a1.last_cubic_control P = none ∧ a1.last_quadratic_control P = none := by
  cases t with
  | absolute_coordinate =>
    refine ⟨_, rfl, ?_⟩
    cases hC : P.no_cubic_bezier_shorthand <;> cases hQ : has_quadratic_bezier_data P <;>
      simp [path_move_to_absolute, absolute_x, absolute_y, last_cubic_control,
        last_quadratic_control, forward, non_curve_command, invalidate_last_cubic_bezier_cp,
        invalidate_last_quadratic_bezier_cp, hC, hQ]
  | relative_coordinate =>
    have hA : P.absolute_coordinates_only = true := by
      rcases h with h | h
      · cases h
      · exact h
    simp only [path_adapter_load_path_policy, path_move_to, hA, if_true, Except.ok.injEq,
      exists_eq_left']
    cases hC : P.no_cubic_bezier_shorthand <;> cases hQ : has_quadratic_bezier_data P <;>
      simp [path_move_to_absolute, absolute_x, absolute_y, last_cubic_control,
        last_quadratic_control, forward, non_curve_command, invalidate_last_cubic_bezier_cp,
        invalidate_last_quadratic_bezier_cp, hC, hQ]

/-- C14, at a concrete input: the relative move-to by `(2,3)` from the pen position `(0,0)` under
`absolute_coordinates_only`. -/
theorem move_to_absolute_form_witness :
    (tag.relative_coordinate = tag.absolute_coordinate ∨
      policy_absolute.absolute_coordinates_only = true) ∧
    ∃ a1,
      path_adapter_load_path_policy helpers_no_segment policy_absolute 0 fresh
        (.path_move_to 2 3 .relative_coordinate) = .ok a1 ∧
      a1.output_context = fresh.output_context ++
        [.path_move_to (fresh.absolute_x .relative_coordinate 2)
          (fresh.absolute_y .relative_coordinate 3) .absolute_coordinate] ∧
      a1.current_x = fresh.absolute_x .relative_coordinate 2 ∧
      a1.current_y = fresh.absolute_y .relative_coordinate 3 ∧
      a1.subpath_start_x = fresh.absolute_x .relative_coordinate 2 ∧
      a1.subpath_start_y = fresh.absolute_y .relative_coordinate 3 ∧
      a1.last_cubic_control policy_absolute = none ∧
      a1.last_quadratic_control policy_absolute = none :=
  ⟨Or.inr rfl,
    move_to_absolute_form helpers_no_segment policy_absolute 0 fresh 2 3 .relative_coordinate
      (Or.inr rfl)⟩

/-- C15. From every adapter state, close-subpath makes exactly one call on the output context,
the close; afterwards the pen is at the subpath start, both control memories are invalid and the
subpath start is unchanged. A relative line-to issued next is therefore resolved against the
subpath start, and in the stream "move-to `p`, line-to `q`, close, relative line-to `d`" the pen
ends at `p + d`. -/
theorem close_subpath_returns_to_subpath_start (H : arc_helpers) (P : PathPolicy) (fuel : Nat)
    (a : path_adapter) :
    (∃ a1,
      path_adapter_load_path_policy H P fuel a .path_close_subpath = .ok a1 ∧
      a1.output_context = a.output_context ++ [.path_close_subpath] ∧
      a1.current_x = a.subpath_start_x ∧ a1.current_y = a.subpath_start_y ∧
      a1.subpath_start_x = a.subpath_start_x ∧ a1.subpath_start_y = a.subpath_start_y ∧
      a1.last_cubic_control P = none ∧ a1.last_quadratic_control P = none ∧
      ∀ dx dy, ∃ a2,
        path_adapter_load_path_policy H P fuel a1 (.path_line_to dx dy .relative_coordinate)
          = .ok a2 ∧
        a2.current_x = a.subpath_start_x + dx ∧ a2.current_y = a.subpath_start_y + dy ∧
        a2.output_context = a1.output_context ++
          [if P.absolute_coordinates_only then
             .path_line_to (a.subpath_start_x + dx) (a.subpath_start_y + dy) .absolute_coordinate
           else .path_line_to dx dy .relative_coordinate]) ∧
    (∀ px py qx qy dx dy,
      (load_path H P fuel a
        [.path_move_to px py .absolute_coordinate, .path_line_to qx qy .absolute_coordinate,
         .path_close_subpath, .path_line_to dx dy .relative_coordinate]).2 = none ∧
      (load_path H P fuel a
        [.path_move_to px py .absolute_coordinate, .path_line_to qx qy .absolute_coordinate,
         .path_close_subpath, .path_line_to dx dy .relative_coordinate]).1.current_x = px + dx ∧
      (load_path H P fuel a
        [.path_move_to px py .absolute_coordinate, .path_line_to qx qy .absolute_coordinate,
         .path_close_subpath, .path_line_to dx dy .relative_coordinate]).1.current_y
          = py + dy) := by
  refine ⟨⟨_, rfl, ?_⟩, ?_⟩
  · cases hA : P.absolute_coordinates_only <;>
      cases hC : P.no_cubic_bezier_shorthand <;> cases hQ : has_quadratic_bezier_data P <;>
      simp [path_adapter_load_path_policy, path_close_subpath, path_line_to,
        last_cubic_control, last_quadratic_control, forward, non_curve_command,
        invalidate_last_cubic_bezier_cp, invalidate_last_quadratic_bezier_cp, hA, hC, hQ]
  · intro px py qx qy dx dy
    cases hA : P.absolute_coordinates_only <;>
      simp [load_path, path_adapter_load_path_policy, path_move_to, path_move_to_absolute,
        path_close_subpath, path_line_to, hA]

/-- C16. Under `no_ortho_line_to` an orthogonal line-to is handled exactly like the line-to it
is rewritten to: absolute horizontal `c` like the absolute line-to `(c, current_y)`, absolute
vertical `c` like `(current_x, c)`, relative horizontal `c` like the relative line-to `(c, 0)`
and relative vertical `c` like `(0, c)`. The two handlers return the same adapter, output
context included. -/
theorem ortho_line_rewritten_as_line (H : arc_helpers) (P : PathPolicy) (fuel : Nat)
    (a : path_adapter) (c : coordinate_type) (h : P.no_ortho_line_to = true) :
    path_adapter_load_path_policy H P fuel a (.path_line_to_ortho c true .absolute_coordinate)
      = path_adapter_load_path_policy H P fuel a
          (.path_line_to c a.current_y .absolute_coordinate) ∧
    path_adapter_load_path_policy H P fuel a (.path_line_to_ortho c false .absolute_coordinate)
      = path_adapter_load_path_policy H P fuel a
          (.path_line_to a.current_x c .absolute_coordinate) ∧
    path_adapter_load_path_policy H P fuel a (.path_line_to_ortho c true .relative_coordinate)
      = path_adapter_load_path_policy H P fuel a (.path_line_to c 0 .relative_coordinate) ∧
    path_adapter_load_path_policy H P fuel a (.path_line_to_ortho c false .relative_coordinate)
      = path_adapter_load_path_policy H P fuel a (.path_line_to 0 c .relative_coordinate) ∧
    ∃ a1, path_adapter_load_path_policy H P fuel a
        (.path_line_to_ortho c true .absolute_coordinate) = .ok a1 ∧
      a1.output_context = a.output_context ++
        [.path_line_to c a.current_y .absolute_coordinate] := by
  refine ⟨?_, ?_, ?_, ?_, _, rfl, ?_⟩ <;>
    simp [path_adapter_load_path_policy, path_line_to_ortho, path_line_to, h]

/-- C16, at a concrete input: the absolute horizontal line-to `7` after a move-to to `(1,2)` is
forwarded as the line-to `(7,2)`. -/
theorem ortho_line_rewritten_as_line_witness :
    policy_relative.no_ortho_line_to = true ∧
    (path_adapter_load_path_policy helpers_no_segment policy_relative 0
        (path_move_to_absolute policy_relative fresh 1 2)
        (.path_line_to_ortho 7 true .absolute_coordinate)
      = path_adapter_load_path_policy helpers_no_segment policy_relative 0
          (path_move_to_absolute policy_relative fresh 1 2)
          (.path_line_to 7 (path_move_to_absolute policy_relative fresh 1 2).current_y
            .absolute_coordinate)) ∧
    (path_move_to_absolute policy_relative fresh 1 2).current_y = 2 :=
  ⟨rfl,
    (ortho_line_rewritten_as_line helpers_no_segment policy_relative 0
      (path_move_to_absolute policy_relative fresh 1 2) 7 rfl).1,
    rfl⟩

/-- C17. With `arc_as_cubic_bezier` off, an elliptical arc makes exactly one call on the output
context, the arc with radii, rotation and both flags unchanged. The endpoint and the tag are
unchanged too, except that a relative endpoint under `absolute_coordinates_only` is replaced by
endpoint plus current point, tagged absolute. Afterwards both control memories are invalid and
the pen is at the absolute endpoint of the arc. -/
theorem arc_pass_through (H : arc_helpers) (P : PathPolicy) (fuel : Nat) (a : path_adapter)
    (rx ry x_axis_rotation : coordinate_type) (large_arc_flag sweep_flag : Bool)
    (x y : coordinate_type) (t : tag) (h : P.arc_as_cubic_bezier = false) :
    ∃ a1,
      path_adapter_load_path_policy H P fuel a
        (.path_elliptical_arc_to rx ry x_axis_rotation large_arc_flag sweep_flag x y t)
        = .ok a1 ∧
      a1.output_context = a.output_context ++
        [match t with
         | .absolute_coordinate =>
           .path_elliptical_arc_to rx ry x_axis_rotation large_arc_flag sweep_flag x y
             .absolute_coordinate
         | .relative_coordinate =>
           if P.absolute_coordinates_only then
             .path_elliptical_arc_to rx ry x_axis_rotation large_arc_flag sweep_flag
               (x + a.current_x) (y + a.current_y) .absolute_coordinate
           else
             .path_elliptical_arc_to rx ry x_axis_rotation large_arc_flag sweep_flag x y
               .relative_coordinate] ∧
      a1.last_cubic_control P = none ∧ a1.last_quadratic_control P = none ∧
      a1.current_x = a.absolute_x t x ∧ a1.current_y = a.absolute_y t y ∧
      a1.subpath_start_x = a.subpath_start_x ∧ a1.subpath_start_y = a.subpath_start_y := by
  refine ⟨_, rfl, ?_⟩
  cases t <;> cases hA : P.absolute_coordinates_only <;>
    cases hC : P.no_cubic_bezier_shorthand <;> cases hQ : has_quadratic_bezier_data P <;>
    simp [path_elliptical_arc_to, path_elliptical_arc_to_absolute, absolute_x, absolute_y,
      last_cubic_control, last_quadratic_control, forward, non_curve_command,
      invalidate_last_cubic_bezier_cp, invalidate_last_quadratic_bezier_cp, h, hA, hC, hQ,
      add_comm]

/-- C17, at a concrete input: a relative arc to `(4,1)` from the pen position `(0,0)` under
`absolute_coordinates_only`. -/
theorem arc_pass_through_witness :
    policy_absolute.arc_as_cubic_bezier = false ∧
    ∃ a1,
      path_adapter_load_path_policy helpers_no_segment policy_absolute 0 fresh
        (.path_elliptical_arc_to 5 6 30 true false 4 1 .relative_coordinate) = .ok a1 ∧
      a1.output_context = fresh.output_context ++
        [if policy_absolute.absolute_coordinates_only then
           .path_elliptical_arc_to 5 6 30 true false (4 + fresh.current_x) (1 + fresh.current_y)
             .absolute_coordinate
         else
           .path_elliptical_arc_to 5 6 30 true false 4 1 .relative_coordinate] ∧
      a1.last_cubic_control policy_absolute = none ∧
      a1.last_quadratic_control policy_absolute = none ∧
      a1.current_x = fresh.absolute_x .relative_coordinate 4 ∧
      a1.current_y = fresh.absolute_y .relative_coordinate 1 ∧
      a1.subpath_start_x = fresh.subpath_start_x ∧ a1.subpath_start_y = fresh.subpath_start_y :=
  ⟨rfl,
    arc_pass_through helpers_no_segment policy_absolute 0 fresh 5 6 30 true false 4 1
      .relative_coordinate rfl⟩

/-- C18. Under `no_cubic_bezier_shorthand` and `absolute_coordinates_only`, a relative cubic
shorthand `(dx2, dy2, dx, dy)` that arrives while the cubic control memory is invalid makes
exactly one call on the output context: the absolute explicit cubic with first control point
the current point, second control point `current + (dx2, dy2)` and endpoint
`current + (dx, dy)`. From a freshly constructed adapter the shorthand `(0,10,10,10)` is
forwarded as the cubic `(0,0) (0,10) (10,10)`. -/
theorem cubic_shorthand_without_prior_cubic (H : arc_helpers) (P : PathPolicy) (fuel : Nat)
    (a : path_adapter) (dx2 dy2 dx dy : coordinate_type)
    (hC : P.no_cubic_bezier_shorthand = true) (hA : P.absolute_coordinates_only = true)
    (hv : a.last_cubic_control P = none) :
    (∃ a1,
      path_adapter_load_path_policy H P fuel a
        (.path_cubic_bezier_to_shorthand dx2 dy2 dx dy .relative_coordinate) = .ok a1 ∧
      a1.output_context = a.output_context ++
        [.path_cubic_bezier_to a.current_x a.current_y
           (a.current_x + dx2) (a.current_y + dy2) (a.current_x + dx) (a.current_y + dy)
           .absolute_coordinate]) ∧
    (∀ original_context cubic_x cubic_y quadratic_x quadratic_y, ∃ a1,
      path_adapter_load_path_policy H P fuel
        (initial original_context cubic_x cubic_y quadratic_x quadratic_y)
        (.path_cubic_bezier_to_shorthand 0 10 10 10 .relative_coordinate) = .ok a1 ∧
      a1.output_context = original_context ++
        [.path_cubic_bezier_to 0 0 0 10 10 10 .absolute_coordinate]) := by
  have hv1 : a.last_cubic_bezier_cp_valid = false := by
    simpa [last_cubic_control, hC] using hv
  refine ⟨⟨_, rfl, ?_⟩, ?_⟩
  · cases hQ : has_quadratic_bezier_data P <;>
      simp [path_cubic_bezier_to_shorthand, path_cubic_bezier_to, forward, set_cubic_cp,
        set_cubic_cp_base, invalidate_last_quadratic_bezier_cp, hC, hA, hv1, hQ, add_comm]
  · intro original_context cubic_x cubic_y quadratic_x quadratic_y
    refine ⟨_, rfl, ?_⟩
    cases hQ : has_quadratic_bezier_data P <;>
      simp [path_cubic_bezier_to_shorthand, path_cubic_bezier_to, initial, forward,
        set_cubic_cp, set_cubic_cp_base, invalidate_last_quadratic_bezier_cp, hC, hA, hQ]

/-- C18, at a concrete input: the policy with every flag set and a freshly constructed
adapter. -/
theorem cubic_shorthand_without_prior_cubic_witness :
    policy_all.no_cubic_bezier_shorthand = true ∧
    policy_all.absolute_coordinates_only = true ∧
    fresh.last_cubic_control policy_all = none ∧
    (∃ a1,
      path_adapter_load_path_policy helpers_no_segment policy_all 0 fresh
        (.path_cubic_bezier_to_shorthand 0 10 10 10 .relative_coordinate) = .ok a1 ∧
      a1.output_context = fresh.output_context ++
        [.path_cubic_bezier_to fresh.current_x fresh.current_y
           (fresh.current_x + 0) (fresh.current_y + 10) (fresh.current_x + 10)
           (fresh.current_y + 10) .absolute_coordinate]) ∧
    fresh.current_x = 0 ∧ fresh.current_y = 0 :=
  ⟨rfl, rfl, rfl,
    (cubic_shorthand_without_prior_cubic helpers_no_segment policy_all 0 fresh 0 10 10 10
      rfl rfl rfl).1,
    rfl, rfl⟩

/-- C19 (fails as stated). With cubic shorthand supported the adapter has no cubic control
memory (its base is the stub, whose `set_cubic_cp_base` does nothing): after the explicit cubic
`(1,1) (2,1) (3,0)` the cubic control memory is not `(2,1)`, it is absent, and the members of
the model are the ones the adapter was constructed with. -/
theorem explicit_cubic_not_recorded_by_stub :
    policy_absolute.static_assert_ok = true ∧
    policy_absolute.no_cubic_bezier_shorthand = false ∧
    ∃ a1,
      path_adapter_load_path_policy helpers_no_segment policy_absolute 0 fresh
        (.path_cubic_bezier_to 1 1 2 1 3 0 .absolute_coordinate) = .ok a1 ∧
      a1.output_context = [.path_cubic_bezier_to 1 1 2 1 3 0 .absolute_coordinate] ∧
      a1.last_cubic_control policy_absolute = none ∧
      a1.last_cubic_control policy_absolute ≠ some (2, 1) ∧
      a1.last_cubic_bezier_cp_valid = false ∧
      a1.last_cubic_bezier_cp_x = fresh.last_cubic_bezier_cp_x ∧
      a1.last_cubic_bezier_cp_y = fresh.last_cubic_bezier_cp_y := by
  refine ⟨rfl, rfl, _, rfl, ?_⟩
  simp [path_cubic_bezier_to, policy_absolute, fresh, initial, last_cubic_control, forward,
    set_cubic_cp, set_cubic_cp_base, invalidate_last_quadratic_bezier_cp,
    has_quadratic_bezier_data]

/-- C19 (amended). Every explicit cubic command makes exactly one call on the output context,
an explicit cubic: the command itself, except that a relative command under
`absolute_coordinates_only` has the current point added to each coordinate and is tagged
absolute. Afterwards the pen is at the absolute endpoint, the quadratic control memory is
invalid, and the cubic control memory holds `(x2, y2)` in absolute space when
`no_cubic_bezier_shorthand` is set; when it is not set the adapter has no cubic control memory
and records nothing. -/
theorem explicit_cubic_record (H : arc_helpers) (P : PathPolicy) (fuel : Nat)
    (a : path_adapter) (x1 y1 x2 y2 x y : coordinate_type) (t : tag) :
    ∃ a1,
      path_adapter_load_path_policy H P fuel a (.path_cubic_bezier_to x1 y1 x2 y2 x y t)
        = .ok a1 ∧
      a1.output_context = a.output_context ++
        [match t with
         | .absolute_coordinate => .path_cubic_bezier_to x1 y1 x2 y2 x y .absolute_coordinate
         | .relative_coordinate =>
           if P.absolute_coordinates_only then
             .path_cubic_bezier_to (x1 + a.current_x) (y1 + a.current_y)
               (x2 + a.current_x) (y2 + a.current_y) (x + a.current_x) (y + a.current_y)
               .absolute_coordinate
           else .path_cubic_bezier_to x1 y1 x2 y2 x y .relative_coordinate] ∧
      a1.last_cubic_control P
        = (if P.no_cubic_bezier_shorthand then some (a.absolute_x t x2, a.absolute_y t y2)
           else none) ∧
      a1.last_quadratic_control P = none ∧
      a1.current_x = a.absolute_x t x ∧ a1.current_y = a.absolute_y t y := by
  refine ⟨_, rfl, ?_⟩
  cases t <;> cases hA : P.absolute_coordinates_only <;>
    cases hC : P.no_cubic_bezier_shorthand <;> cases hQ : has_quadratic_bezier_data P <;>
    simp [path_cubic_bezier_to, absolute_x, absolute_y, last_cubic_control,
      last_quadratic_control, forward, set_cubic_cp, set_cubic_cp_base,
      invalidate_last_quadratic_bezier_cp, hA, hC, hQ, add_comm]

/-- C20 (fails as stated). With `arc_as_cubic_bezier` set and cubic shorthand supported the
adapter has no cubic control memory: after an arc whose subdivision yields the one segment
`(1,1) (2,1) (3,0)` the pen is at `(3,0)` and the segment was forwarded as a cubic, but the cubic
control memory is not `(2,1)`, it is absent. -/
theorem arc_as_cubic_not_recorded_by_stub :
    policy_arc_cubic_shorthand.static_assert_ok = true ∧
    policy_arc_cubic_shorthand.arc_as_cubic_bezier = true ∧
    ∃ a1,
      path_adapter_load_path_policy helpers_one_segment policy_arc_cubic_shorthand 0 fresh
        (.path_elliptical_arc_to 5 5 0 false true 3 0 .absolute_coordinate) = .ok a1 ∧
      a1.output_context = [.path_cubic_bezier_to 1 1 2 1 3 0 .absolute_coordinate] ∧
      a1.current_x = 3 ∧ a1.current_y = 0 ∧
      a1.last_cubic_control policy_arc_cubic_shorthand = none ∧
      a1.last_cubic_control policy_arc_cubic_shorthand ≠ some (2, 1) ∧
      a1.last_cubic_bezier_cp_valid = false := by
  refine ⟨rfl, rfl, _, rfl, ?_⟩
  simp [path_elliptical_arc_to, path_elliptical_arc_to_absolute, arc_segments,
    helpers_one_segment, path_cubic_bezier_to, policy_arc_cubic_shorthand, fresh, initial,
    last_cubic_control, forward, set_cubic_cp, set_cubic_cp_base,
    invalidate_last_quadratic_bezier_cp, has_quadratic_bezier_data]

/-- C20 (amended). With `arc_as_cubic_bezier` set, whatever segments the arc subdivision yields,
the output context receives exactly one absolute explicit cubic per segment, in the order they
are yielded, and nothing else. If no segment is yielded the adapter is unchanged. Otherwise the
pen ends at the `p3` of the last segment, the quadratic control memory is invalid, and the cubic
control memory holds the `p2` of the last segment when `no_cubic_bezier_shorthand` is set; when
it is not set the adapter has no cubic control memory and records nothing. -/
theorem arc_as_cubic_emission (H : arc_helpers) (P : PathPolicy) (fuel : Nat)
    (a : path_adapter) (rx ry x_axis_rotation : coordinate_type)
    (large_arc_flag sweep_flag : Bool) (x y : coordinate_type) (t : tag)
    (h : P.arc_as_cubic_bezier = true) :
    ∃ a1,
      path_adapter_load_path_policy H P fuel a
        (.path_elliptical_arc_to rx ry x_axis_rotation large_arc_flag sweep_flag x y t)
        = .ok a1 ∧
      a1.output_context = a.output_context ++
        (arc_segments H a rx ry x_axis_rotation large_arc_flag sweep_flag
            (a.absolute_x t x) (a.absolute_y t y)).map
          (fun it =>
            path_command.path_cubic_bezier_to it.p1x it.p1y it.p2x it.p2y it.p3x it.p3y
              .absolute_coordinate) ∧
      (arc_segments H a rx ry x_axis_rotation large_arc_flag sweep_flag
          (a.absolute_x t x) (a.absolute_y t y) = [] → a1 = a) ∧
      (∀ it,
        (arc_segments H a rx ry x_axis_rotation large_arc_flag sweep_flag
          (a.absolute_x t x) (a.absolute_y t y)).getLast? = some it →
        a1.current_x = it.p3x ∧ a1.current_y = it.p3y ∧
        a1.last_cubic_control P
          = (if P.no_cubic_bezier_shorthand then some (it.p2x, it.p2y) else none) ∧
        a1.last_quadratic_control P = none) := by
  have e : a.path_elliptical_arc_to H P rx ry x_axis_rotation large_arc_flag sweep_flag x y t
      = (arc_segments H a rx ry x_axis_rotation large_arc_flag sweep_flag
          (a.absolute_x t x) (a.absolute_y t y)).foldl
        (fun a it =>
          path_cubic_bezier_to P a it.p1x it.p1y it.p2x it.p2y it.p3x it.p3y
            .absolute_coordinate) a := by
    cases t <;>
      simp [path_elliptical_arc_to, path_elliptical_arc_to_absolute, h, absolute_x, absolute_y,
        add_comm]
  refine ⟨_, rfl, ?_, ?_, ?_⟩
  · rw [e, foldl_cubic_output_context]
  · intro hnil
    rw [e, hnil, List.foldl_nil]
  · intro it hlast
    obtain ⟨ys, hys⟩ := List.getLast?_eq_some_iff.mp hlast
    rw [e, hys]
    exact foldl_cubic_state_concat P ys it a

/-- C20 (amended), at a concrete input: an arc whose subdivision yields one segment, under a
policy that expands the cubic shorthand. -/
theorem arc_as_cubic_emission_witness :
    policy_arc_as_cubic.arc_as_cubic_bezier = true ∧
    ∃ a1,
      path_adapter_load_path_policy helpers_one_segment policy_arc_as_cubic 0 fresh
        (.path_elliptical_arc_to 5 5 0 false true 3 0 .absolute_coordinate) = .ok a1 ∧
      a1.output_context = fresh.output_context ++
        (arc_segments helpers_one_segment fresh 5 5 0 false true
            (fresh.absolute_x .absolute_coordinate 3)
            (fresh.absolute_y .absolute_coordinate 0)).map
          (fun it =>
            path_command.path_cubic_bezier_to it.p1x it.p1y it.p2x it.p2y it.p3x it.p3y
              .absolute_coordinate) ∧
      (arc_segments helpers_one_segment fresh 5 5 0 false true
          (fresh.absolute_x .absolute_coordinate 3)
          (fresh.absolute_y .absolute_coordinate 0) = [] → a1 = fresh) ∧
      (∀ it,
        (arc_segments helpers_one_segment fresh 5 5 0 false true
          (fresh.absolute_x .absolute_coordinate 3)
          (fresh.absolute_y .absolute_coordinate 0)).getLast? = some it →
        a1.current_x = it.p3x ∧ a1.current_y = it.p3y ∧
        a1.last_cubic_control policy_arc_as_cubic
          = (if policy_arc_as_cubic.no_cubic_bezier_shorthand then some (it.p2x, it.p2y)
             else none) ∧
        a1.last_quadratic_control policy_arc_as_cubic = none) :=
  ⟨rfl,
    arc_as_cubic_emission helpers_one_segment policy_arc_as_cubic 0 fresh 5 5 0 false true 3 0
      .absolute_coordinate rfl⟩

/-- C11. At most one of the two control memories is valid: in the state the constructor builds
(where neither is), after every command handler that is entered in such a state, and hence in
every state a command stream leads to from the constructed one. In those reachable states the
two members `last_cubic_bezier_cp_valid` and `last_quadratic_bezier_cp_valid` are never both
set. The statement needs no assumption on the policy, so it holds for the valid ones. -/
theorem at_most_one_control_memory_valid (H : arc_helpers) (P : PathPolicy) (fuel : Nat) :
    (∀ original_context cubic_x cubic_y quadratic_x quadratic_y,
      (initial original_context cubic_x cubic_y quadratic_x quadratic_y).last_cubic_control P
        = none ∧
      (initial original_context cubic_x cubic_y quadratic_x quadratic_y).last_quadratic_control P
        = none) ∧
    (∀ a c a1,
      (a.last_cubic_control P = none ∨ a.last_quadratic_control P = none) →
      path_adapter_load_path_policy H P fuel a c = .ok a1 →
      (a1.last_cubic_control P = none ∨ a1.last_quadratic_control P = none)) ∧
    (∀ original_context cubic_x cubic_y quadratic_x quadratic_y cmds,
      ((load_path H P fuel
          (initial original_context cubic_x cubic_y quadratic_x quadratic_y)
          cmds).1.last_cubic_control P = none ∨
       (load_path H P fuel
          (initial original_context cubic_x cubic_y quadratic_x quadratic_y)
          cmds).1.last_quadratic_control P = none) ∧
      ((load_path H P fuel
          (initial original_context cubic_x cubic_y quadratic_x quadratic_y)
          cmds).1.last_cubic_bezier_cp_valid &&
       (load_path H P fuel
          (initial original_context cubic_x cubic_y quadratic_x quadratic_y)
          cmds).1.last_quadratic_bezier_cp_valid) = false) := by
  have h0 : ∀ original_context cubic_x cubic_y quadratic_x quadratic_y,
      (initial original_context cubic_x cubic_y quadratic_x quadratic_y).last_cubic_control P
        = none ∧
      (initial original_context cubic_x cubic_y quadratic_x quadratic_y).last_quadratic_control P
        = none := by
    intro original_context cubic_x cubic_y quadratic_x quadratic_y
    simp [initial, last_cubic_control, last_quadratic_control]
  refine ⟨h0, ?_, ?_⟩
  · intro a c a1 hc h
    exact at_most_one_control_step H P fuel a a1 c hc h
  · intro original_context cubic_x cubic_y quadratic_x quadratic_y cmds
    have hinv := at_most_one_control_load_path H P fuel cmds
      (initial original_context cubic_x cubic_y quadratic_x quadratic_y)
      (Or.inl (h0 original_context cubic_x cubic_y quadratic_x quadratic_y).1)
    have hw := well_formed_load_path H P fuel cmds
      (initial original_context cubic_x cubic_y quadratic_x quadratic_y)
      (by simp [initial, well_formed])
    exact ⟨hinv, valid_flags_of_control_memories P _ hw hinv⟩

/-- C11, at a concrete input: the sample stream under the policy with every flag set, and the
end-of-path handler entered in the constructed state. -/
theorem at_most_one_control_memory_valid_witness :
    (((load_path helpers_one_segment policy_all 1 (initial [] 0 0 0 0)
          sample_stream).1.last_cubic_control policy_all = none ∨
       (load_path helpers_one_segment policy_all 1 (initial [] 0 0 0 0)
          sample_stream).1.last_quadratic_control policy_all = none) ∧
      ((load_path helpers_one_segment policy_all 1 (initial [] 0 0 0 0)
          sample_stream).1.last_cubic_bezier_cp_valid &&
       (load_path helpers_one_segment policy_all 1 (initial [] 0 0 0 0)
          sample_stream).1.last_quadratic_bezier_cp_valid) = false) ∧
    (fresh.last_cubic_control policy_all = none ∨
      fresh.last_quadratic_control policy_all = none) ∧
    path_adapter_load_path_policy helpers_one_segment policy_all 1 fresh .path_exit
      = .ok fresh.path_exit ∧
    (fresh.path_exit.last_cubic_control policy_all = none ∨
      fresh.path_exit.last_quadratic_control policy_all = none) :=
  ⟨(at_most_one_control_memory_valid helpers_one_segment policy_all 1).2.2 [] 0 0 0 0
      sample_stream,
    Or.inl rfl, rfl,
    (at_most_one_control_memory_valid helpers_one_segment policy_all 1).2.1 fresh .path_exit
      fresh.path_exit (Or.inl rfl) rfl⟩

/-- C21. Let `theta1`, `theta2` be the angles the endpoint-to-center step returns, less than a
full turn apart. After the adjustment of lines 631-640 the swept angle `theta2 − theta1` is
non-negative when the sweep flag is set and non-positive when it is clear; `theta2` is unchanged
or moved by exactly one full turn (up when the flag is set, down when it is clear); and the
subdivision is handed `theta1` as it was returned. Angle arithmetic is exact, the full turn is
the constant `two_pi` of the helpers. -/
theorem arc_theta_adjustment (H : arc_helpers) (sweep_flag : Bool)
    (theta1 theta2 : coordinate_type) (h : abs (theta2 - theta1) < H.two_pi) :
    (sweep_flag = true → 0 ≤ arc_adjust_theta2 H sweep_flag theta1 theta2 - theta1) ∧
    (sweep_flag = false → arc_adjust_theta2 H sweep_flag theta1 theta2 - theta1 ≤ 0) ∧
    (arc_adjust_theta2 H sweep_flag theta1 theta2 = theta2 ∨
      (sweep_flag = true ∧ arc_adjust_theta2 H sweep_flag theta1 theta2 = theta2 + H.two_pi) ∨
      (sweep_flag = false ∧ arc_adjust_theta2 H sweep_flag theta1 theta2 = theta2 - H.two_pi)) ∧
    (∀ (a : path_adapter) (rx ry x_axis_rotation : coordinate_type) (large_arc_flag : Bool)
        (x y cx cy : coordinate_type),
      H.arc_endpoint_to_center a.current_x a.current_y x y rx ry x_axis_rotation
          large_arc_flag sweep_flag = (cx, cy, theta1, theta2) →
      arc_segments H a rx ry x_axis_rotation large_arc_flag sweep_flag x y
        = H.arc_to_bezier cx cy rx ry x_axis_rotation theta1
            (arc_adjust_theta2 H sweep_flag theta1 theta2) H.half_pi) := by
  obtain ⟨hlo, hhi⟩ := abs_lt.mp h
  refine ⟨?_, ?_, ?_, ?_⟩
  · intro hs
    subst hs
    simp only [arc_adjust_theta2, if_true]
    split_ifs <;> linarith
  · intro hs
    subst hs
    simp only [arc_adjust_theta2, Bool.false_eq_true, if_false]
    split_ifs <;> linarith
  · cases sweep_flag <;> simp only [arc_adjust_theta2, Bool.false_eq_true, if_false, if_true] <;>
      split_ifs <;> simp
  · intro a rx ry x_axis_rotation large_arc_flag x y cx cy hc
    simp only [arc_segments, hc]

/-- C21, at a concrete input: with full turn `6`, the angles `theta1 = 1`, `theta2 = 0` and the
sweep flag set, `theta2` becomes `6`. -/
theorem arc_theta_adjustment_witness :
    abs ((0 : coordinate_type) - 1) < helpers_angles.two_pi ∧
    arc_adjust_theta2 helpers_angles true 1 0 = 6 ∧
    ((true = true → 0 ≤ arc_adjust_theta2 helpers_angles true 1 0 - 1) ∧
    (true = false → arc_adjust_theta2 helpers_angles true 1 0 - 1 ≤ 0) ∧
    (arc_adjust_theta2 helpers_angles true 1 0 = 0 ∨
      (true = true ∧ arc_adjust_theta2 helpers_angles true 1 0 = 0 + helpers_angles.two_pi) ∨
      (true = false ∧ arc_adjust_theta2 helpers_angles true 1 0 = 0 - helpers_angles.two_pi)) ∧
    (∀ (a : path_adapter) (rx ry x_axis_rotation : coordinate_type) (large_arc_flag : Bool)
        (x y cx cy : coordinate_type),
      helpers_angles.arc_endpoint_to_center a.current_x a.current_y x y rx ry x_axis_rotation
          large_arc_flag true = (cx, cy, 1, 0) →
      arc_segments helpers_angles a rx ry x_axis_rotation large_arc_flag true x y
        = helpers_angles.arc_to_bezier cx cy rx ry x_axis_rotation 1
            (arc_adjust_theta2 helpers_angles true 1 0) helpers_angles.half_pi)) := by
  have hlt : abs ((0 : coordinate_type) - 1) < helpers_angles.two_pi := by
    simp [helpers_angles]
  refine ⟨hlt, ?_, arc_theta_adjustment helpers_angles true 1 0 hlt⟩
  simp [arc_adjust_theta2, helpers_angles]

/-- C22 (the code breaks it). When the quadratic shorthand is supported the quadratic base of the
adapter is the stub, and the three overloads that forward the shorthand (lines 393-453) read a
member the stub does not declare: for the policy that sets `absolute_coordinates_only` alone the
handler has no instantiation, whatever the state, the endpoint and the tag, and the stream
"quadratic `(3,3) (6,0)`, shorthand to `(12,0)`" delivers the quadratic only. Whatever value the
read is given, the branch it selects calls the stub's empty `set_quadratic_cp_base`: no control
point is recorded and the members of the model keep their values. -/
theorem forwarded_quadratic_shorthand_not_recorded (H : arc_helpers) (fuel : Nat) :
    policy_shorthand_supported.static_assert_ok = true ∧
    need_path_adapter policy_shorthand_supported = true ∧
    has_quadratic_bezier_data policy_shorthand_supported = false ∧
    (∀ a x y t,
      path_adapter_load_path_policy H policy_shorthand_supported fuel a
        (.path_quadratic_bezier_to_shorthand x y t) = .error .ill_formed) ∧
    (load_path H policy_shorthand_supported fuel fresh
        [.path_quadratic_bezier_to 3 3 6 0 .absolute_coordinate,
         .path_quadratic_bezier_to_shorthand 12 0 .absolute_coordinate]).2
      = some .ill_formed ∧
    (load_path H policy_shorthand_supported fuel fresh
        [.path_quadratic_bezier_to 3 3 6 0 .absolute_coordinate,
         .path_quadratic_bezier_to_shorthand 12 0 .absolute_coordinate]).1.output_context
      = [.path_quadratic_bezier_to 3 3 6 0 .absolute_coordinate] ∧
    (∀ a valid,
      (quadratic_shorthand_cp_branch policy_shorthand_supported a valid).last_quadratic_control
          policy_shorthand_supported = none ∧
      (quadratic_shorthand_cp_branch policy_shorthand_supported a valid).last_quadratic_bezier_cp_valid
        = a.last_quadratic_bezier_cp_valid ∧
      (quadratic_shorthand_cp_branch policy_shorthand_supported a valid).last_quadratic_bezier_cp_x
        = a.last_quadratic_bezier_cp_x ∧
      (quadratic_shorthand_cp_branch policy_shorthand_supported a valid).last_quadratic_bezier_cp_y
        = a.last_quadratic_bezier_cp_y) := by
  have hq : ∀ (a : path_adapter) (x y : coordinate_type) (t : tag),
      path_quadratic_bezier_to_shorthand policy_shorthand_supported a x y t
        = .error .ill_formed := by
    intro a x y t
    cases t <;>
      simp [path_quadratic_bezier_to_shorthand, record_quadratic_shorthand_cp,
        read_last_quadratic_bezier_cp_valid, has_quadratic_bezier_data,
        policy_shorthand_supported]
  refine ⟨rfl, rfl, rfl, ?_, ?_, ?_, ?_⟩
  · intro a x y t
    simp only [path_adapter_load_path_policy, hq]
  · simp only [load_path, path_adapter_load_path_policy, hq]
  · simp only [load_path, path_adapter_load_path_policy, hq]
    simp [path_quadratic_bezier_to, policy_shorthand_supported, fresh, initial]
  · intro a valid
    cases valid <;>
      simp [quadratic_shorthand_cp_branch, set_quadratic_cp, set_quadratic_cp_base,
        invalidate_last_cubic_bezier_cp, has_quadratic_bezier_data, last_quadratic_control,
        policy_shorthand_supported]

/-- C23 (the code breaks it for one command). For every policy and adapter state, the handlers of
the line-to, the orthogonal line-to, the explicit quadratic, the explicit cubic and the cubic
shorthand return with the pen at the absolute endpoint of the command (for an orthogonal line
the named axis only). The handler of the quadratic shorthand does so when the policy expands the
shorthand; when the policy supports it, the handler has no instantiation and there is no state
after the command, as for the shorthand to `(12,0)` under `absolute_coordinates_only` alone. -/
theorem current_point_after_command (H : arc_helpers) (P : PathPolicy) (fuel : Nat)
    (a : path_adapter) :
    (∀ x y t, ∃ a1,
      path_adapter_load_path_policy H P fuel a (.path_line_to x y t) = .ok a1 ∧
      a1.current_x = a.absolute_x t x ∧ a1.current_y = a.absolute_y t y) ∧
    (∀ c t, ∃ a1,
      path_adapter_load_path_policy H P fuel a (.path_line_to_ortho c true t) = .ok a1 ∧
      a1.current_x = a.absolute_x t c ∧ a1.current_y = a.current_y) ∧
    (∀ c t, ∃ a1,
      path_adapter_load_path_policy H P fuel a (.path_line_to_ortho c false t) = .ok a1 ∧
      a1.current_x = a.current_x ∧ a1.current_y = a.absolute_y t c) ∧
    (∀ x1 y1 x y t, ∃ a1,
      path_adapter_load_path_policy H P fuel a (.path_quadratic_bezier_to x1 y1 x y t)
        = .ok a1 ∧
      a1.current_x = a.absolute_x t x ∧ a1.current_y = a.absolute_y t y) ∧
    (∀ x1 y1 x2 y2 x y t, ∃ a1,
      path_adapter_load_path_policy H P fuel a (.path_cubic_bezier_to x1 y1 x2 y2 x y t)
        = .ok a1 ∧
      a1.current_x = a.absolute_x t x ∧ a1.current_y = a.absolute_y t y) ∧
    (∀ x2 y2 x y t, ∃ a1,
      path_adapter_load_path_policy H P fuel a (.path_cubic_bezier_to_shorthand x2 y2 x y t)
        = .ok a1 ∧
      a1.current_x = a.absolute_x t x ∧ a1.current_y = a.absolute_y t y) ∧
    ((P.no_quadratic_bezier_shorthand || P.quadratic_bezier_as_cubic) = true →
      ∀ x y t, ∃ a1,
        path_adapter_load_path_policy H P fuel a (.path_quadratic_bezier_to_shorthand x y t)
          = .ok a1 ∧
        a1.current_x = a.absolute_x t x ∧ a1.current_y = a.absolute_y t y) ∧
    ((P.no_quadratic_bezier_shorthand || P.quadratic_bezier_as_cubic) = false →
      ∀ x y t,
        path_adapter_load_path_policy H P fuel a (.path_quadratic_bezier_to_shorthand x y t)
          = .error .ill_formed) ∧
    policy_shorthand_supported.static_assert_ok = true ∧
    path_adapter_load_path_policy H policy_shorthand_supported fuel fresh
      (.path_quadratic_bezier_to_shorthand 12 0 .absolute_coordinate) = .error .ill_formed := by
  refine ⟨?_, ?_, ?_, ?_, ?_, ?_, ?_, ?_, rfl, ?_⟩
  · intro x y t
    refine ⟨_, rfl, ?_⟩
    cases t <;> cases hA : P.absolute_coordinates_only <;>
      simp [path_line_to, absolute_x, absolute_y, hA]
  · intro c t
    refine ⟨_, rfl, ?_⟩
    cases t <;> cases hA : P.absolute_coordinates_only <;> cases hO : P.no_ortho_line_to <;>
      simp [path_line_to_ortho, path_line_to, absolute_x, absolute_y, hA, hO]
  · intro c t
    refine ⟨_, rfl, ?_⟩
    cases t <;> cases hA : P.absolute_coordinates_only <;> cases hO : P.no_ortho_line_to <;>
      simp [path_line_to_ortho, path_line_to, absolute_x, absolute_y, hA, hO]
  · intro x1 y1 x y t
    refine ⟨_, rfl, ?_⟩
    cases t <;> cases hA : P.absolute_coordinates_only <;>
      cases hQ : P.quadratic_bezier_as_cubic <;>
      simp [path_quadratic_bezier_to, path_cubic_bezier_to, absolute_x, absolute_y, hA, hQ,
        add_comm]
  · intro x1 y1 x2 y2 x y t
    refine ⟨_, rfl, ?_⟩
    cases t <;> cases hA : P.absolute_coordinates_only <;>
      simp [path_cubic_bezier_to, absolute_x, absolute_y, hA, add_comm]
  · intro x2 y2 x y t
    refine ⟨_, rfl, ?_⟩
    cases t <;> cases hA : P.absolute_coordinates_only <;>
      cases hC : P.no_cubic_bezier_shorthand <;>
      cases hv : a.last_cubic_bezier_cp_valid <;>
      simp [path_cubic_bezier_to_shorthand, path_cubic_bezier_to, absolute_x, absolute_y, hA,
        hC, hv, add_comm]
  · intro hE x y t
    cases hS : P.no_quadratic_bezier_shorthand <;> cases hQ : P.quadratic_bezier_as_cubic <;>
      simp [hS, hQ] at hE <;>
      cases t <;> cases hA : P.absolute_coordinates_only <;>
      cases hv : a.last_quadratic_bezier_cp_valid <;>
      simp [path_adapter_load_path_policy, path_quadratic_bezier_to_shorthand,
        path_quadratic_bezier_to, path_cubic_bezier_to, absolute_x, absolute_y, hS, hA, hQ, hv,
        add_comm]
  · intro hE x y t
    have hD : has_quadratic_bezier_data P = false := by
      simpa [has_quadratic_bezier_data] using hE
    cases t <;> cases hA : P.absolute_coordinates_only <;>
      simp [path_adapter_load_path_policy, path_quadratic_bezier_to_shorthand,
        record_quadratic_shorthand_cp, read_last_quadratic_bezier_cp_valid, hE, hA, hD]
  · simp [path_adapter_load_path_policy, path_quadratic_bezier_to_shorthand,
      record_quadratic_shorthand_cp, read_last_quadratic_bezier_cp_valid,
      has_quadratic_bezier_data, policy_shorthand_supported]

/-- C24. A command other than a move-to leaves the subpath start unchanged: whenever its handler
returns, and hence after any stream of such commands; every such handler does return, but for
the quadratic shorthand under a policy that supports it, which has no instantiation and so
changes nothing. End-of-path makes exactly one call on the output context, the terminal signal,
and changes no other member of the adapter. The statement needs no assumption on the policy. -/
theorem subpath_start_changed_only_by_move_to (H : arc_helpers) (P : PathPolicy) (fuel : Nat)
    (a : path_adapter) (c : path_command) (hm : c.is_move_to = false) :
    (∀ a1, path_adapter_load_path_policy H P fuel a c = .ok a1 →
      a1.subpath_start_x = a.subpath_start_x ∧ a1.subpath_start_y = a.subpath_start_y) ∧
    ((∃ a1, path_adapter_load_path_policy H P fuel a c = .ok a1) ∨
      (∃ x y t, c = .path_quadratic_bezier_to_shorthand x y t ∧
        (P.no_quadratic_bezier_shorthand || P.quadratic_bezier_as_cubic) = false ∧
        path_adapter_load_path_policy H P fuel a c = .error .ill_formed)) ∧
    (∀ cmds : List path_command, (∀ d ∈ cmds, d.is_move_to = false) →
      (load_path H P fuel a cmds).1.subpath_start_x = a.subpath_start_x ∧
      (load_path H P fuel a cmds).1.subpath_start_y = a.subpath_start_y) ∧
    path_adapter_load_path_policy H P fuel a .path_exit
      = .ok { a with output_context := a.output_context ++ [.path_exit] } := by
  refine ⟨?_, handler_returns H P fuel a c hm, ?_, rfl⟩
  · intro a1 h
    exact subpath_start_step H P fuel a a1 c hm h
  · intro cmds hcmds
    exact subpath_start_load_path H P fuel cmds a hcmds

/-- C24, at a concrete input: a close-subpath after a move-to to `(1,2)` and a line-to under the
policy with every flag set. -/
theorem subpath_start_changed_only_by_move_to_witness :
    path_command.path_close_subpath.is_move_to = false ∧
    (load_path helpers_one_segment policy_all 1 fresh
      [.path_move_to 1 2 .absolute_coordinate,
       .path_line_to 5 5 .absolute_coordinate]).1.subpath_start_x = 1 ∧
    (load_path helpers_one_segment policy_all 1 fresh
      [.path_move_to 1 2 .absolute_coordinate,
       .path_line_to 5 5 .absolute_coordinate]).1.subpath_start_y = 2 ∧
    (∀ a1, path_adapter_load_path_policy helpers_one_segment policy_all 1
        (load_path helpers_one_segment policy_all 1 fresh
          [.path_move_to 1 2 .absolute_coordinate,
           .path_line_to 5 5 .absolute_coordinate]).1 .path_close_subpath = .ok a1 →
      a1.subpath_start_x
        = (load_path helpers_one_segment policy_all 1 fresh
          [.path_move_to 1 2 .absolute_coordinate,
           .path_line_to 5 5 .absolute_coordinate]).1.subpath_start_x ∧
      a1.subpath_start_y
        = (load_path helpers_one_segment policy_all 1 fresh
          [.path_move_to 1 2 .absolute_coordinate,
           .path_line_to 5 5 .absolute_coordinate]).1.subpath_start_y) := by
  refine ⟨rfl, ?_, ?_,
    (subpath_start_changed_only_by_move_to helpers_one_segment policy_all 1
      (load_path helpers_one_segment policy_all 1 fresh
        [.path_move_to 1 2 .absolute_coordinate,
         .path_line_to 5 5 .absolute_coordinate]).1 .path_close_subpath rfl).1⟩ <;>
    simp [load_path, path_adapter_load_path_policy, path_move_to, path_move_to_absolute,
      path_line_to]

end claims

end svgpp
